import Mathlib

/-!
Verification development for the report_builder repository.

The file embeds, as executable Lean definitions, the query-construction
logic of app/services/calculation_builder.py, the persistence round-trip
of app/models/calculations.py, the aggregation-level check of
app/api/reports.py, and the report execution pipeline of
app/services/report_execution.py.  Relational queries are given list
semantics: a table is a list of rows, an aggregate subquery is computed by
explicit grouping, and SQL NULL is `Option.none` (numeric SQL values are
rationals).  The warehouse row classes (module app/models/dwh_models.py)
and the report ORM classes (Report, ReportDeal, ReportTranche, ReportField,
FilterCondition of app/models/reports.py) are not part of the sources;
their shapes are modelled from the spec's data model (spec §3) together
with the columns the present sources access on them.
-/

set_option maxRecDepth 4000

deriving instance DecidableEq for Except

/-- The eight calculation types of `CalculationType` (calculation_builder.py). -/
inductive CalculationType
  | sum
  | avg
  | weighted_avg
  | count
  | min
  | max
  | ratio
  | percentage
deriving DecidableEq, Repr

/-- The `.value` string of each `CalculationType` enum member. -/
def CalculationType.value : CalculationType → String
  | .sum => "sum"
  | .avg => "avg"
  | .weighted_avg => "weighted_avg"
  | .count => "count"
  | .min => "min"
  | .max => "max"
  | .ratio => "ratio"
  | .percentage => "percentage"

/-- Python `CalculationType(s)`: parse an enum member from its value string. -/
def CalculationType.ofValue : String → Option CalculationType
  | "sum" => some .sum
  | "avg" => some .avg
  | "weighted_avg" => some .weighted_avg
  | "count" => some .count
  | "min" => some .min
  | "max" => some .max
  | "ratio" => some .ratio
  | "percentage" => some .percentage
  | _ => none

/-- The two aggregation levels of `AggregationLevel` (calculation_builder.py). -/
inductive AggregationLevel
  | deal
  | tranche
deriving DecidableEq, Repr

/-- The `.value` string of each `AggregationLevel` member. -/
def AggregationLevel.value : AggregationLevel → String
  | .deal => "deal"
  | .tranche => "tranche"

/-- Python `AggregationLevel(s)`. -/
def AggregationLevel.ofValue : String → Option AggregationLevel
  | "deal" => some .deal
  | "tranche" => some .tranche
  | _ => none

/-- The numeric columns of the tranche-balance fact table that the
builder's `field_mapping` can target. -/
inductive TBField
  | tr_end_bal_amt
  | tr_prin_rel_ls_amt
  | tr_pass_thru_rte
  | tr_accrl_days
  | tr_int_dstrb_amt
  | tr_prin_dstrb_amt
  | tr_int_accrl_amt
  | tr_int_shtfl_amt
deriving DecidableEq, Repr

/-- Modelled from the spec: one balance-fact row (spec §3, "Balance Fact"),
identified by (deal number, tranche id, cycle); the numeric columns are the
ones the sources access on `TrancheBal` (dwh_models.py is not among the
sources). -/
structure TrancheBal where
  dl_nbr : Int
  tr_id : String
  cycle_cde : Int
  tr_end_bal_amt : ℚ
  tr_prin_rel_ls_amt : ℚ
  tr_pass_thru_rte : ℚ
  tr_accrl_days : ℚ
  tr_int_dstrb_amt : ℚ
  tr_prin_dstrb_amt : ℚ
  tr_int_accrl_amt : ℚ
  tr_int_shtfl_amt : ℚ
deriving DecidableEq, Repr

/-- `getattr(TrancheBal, column)` for the numeric fact columns. -/
def getTB (r : TrancheBal) : TBField → ℚ
  | .tr_end_bal_amt => r.tr_end_bal_amt
  | .tr_prin_rel_ls_amt => r.tr_prin_rel_ls_amt
  | .tr_pass_thru_rte => r.tr_pass_thru_rte
  | .tr_accrl_days => r.tr_accrl_days
  | .tr_int_dstrb_amt => r.tr_int_dstrb_amt
  | .tr_prin_dstrb_amt => r.tr_prin_dstrb_amt
  | .tr_int_accrl_amt => r.tr_int_accrl_amt
  | .tr_int_shtfl_amt => r.tr_int_shtfl_amt

/-- Modelled from the spec: one deal row (spec §3, "Deal"), with the columns
the sources access on `Deal`. -/
structure Deal where
  dl_nbr : Int
  issr_cde : String
  cdi_file_nme : String
  CDB_cdi_file_nme : String
deriving DecidableEq, Repr

/-- Modelled from the spec: one tranche row (spec §3, "Tranche"), with the
columns the sources access on `Tranche`. -/
structure Tranche where
  dl_nbr : Int
  tr_id : String
  tr_cusip_id : String
deriving DecidableEq, Repr

/-- `DynamicSubqueryBuilder.field_mapping`: semantic field name to fact
column (calculation_builder.py lines 49-58). -/
def field_mapping : String → Option TBField
  | "ending_balance" => some .tr_end_bal_amt
  | "principal_release" => some .tr_prin_rel_ls_amt
  | "pass_through_rate" => some .tr_pass_thru_rte
  | "accrual_days" => some .tr_accrl_days
  | "interest_distribution" => some .tr_int_dstrb_amt
  | "principal_distribution" => some .tr_prin_dstrb_amt
  | "interest_accrual" => some .tr_int_accrl_amt
  | "interest_shortfall" => some .tr_int_shtfl_amt
  | _ => none

/-- A value of a calculation filter entry: a scalar or a list of scalars
(the two shapes `_apply_filters` distinguishes with `isinstance(value, list)`). -/
inductive CFilterVal
  | num (q : ℚ)
  | list (qs : List ℚ)
deriving DecidableEq, Repr

/-- `CalculationConfig` (calculation_builder.py lines 29-39).  The `filters`
dict is an ordered association list, as Python dicts preserve insertion
order. -/
structure CalculationConfig where
  name : String
  calculation_type : CalculationType
  target_field : String
  aggregation_level : AggregationLevel
  weight_field : Option String
  denominator_field : Option String
  filters : Option (List (String × CFilterVal))
  cycle_filter : Option Int
deriving DecidableEq, Repr

/-- The exceptions `build_calculation_subquery` can raise before the query
exists: `KeyError` from a `field_mapping[...]` lookup (the key may be the
Python `None`), and `ValueError` from an explicit `raise`. -/
inductive BuildError
  | keyError (k : Option String)
  | valueError (msg : String)
deriving DecidableEq, Repr

/-- `self.field_mapping[key]`: a dict lookup that raises `KeyError` when the
key (possibly `None`) is absent. -/
def lookupTB : Option String → Except BuildError TBField
  | none => .error (.keyError none)
  | some s =>
    match field_mapping s with
    | some f => .ok f
    | none => .error (.keyError (some s))

/-- Python truthiness of an optional string: `None` and `""` are falsy. -/
def strFalsy : Option String → Bool
  | none => true
  | some s => decide (s = "")

/-- The `if config.cycle_filter:` step of `_apply_filters`: the guard uses
Python truthiness, so a cycle filter of 0 applies no predicate. -/
def cycleFilterCalc (cyc : Option Int) (rows : List TrancheBal) : List TrancheBal :=
  match cyc with
  | some c => if c = 0 then rows else rows.filter (fun r => decide (r.cycle_cde = c))
  | none => rows

/-- One iteration of the `for field, value in config.filters.items()` loop
of `_apply_filters`: mapped names filter on the resolved column (equality,
or membership for a list value), the reserved name `cycle_cde` filters the
period column, and any other name is skipped. -/
def calcFilterStep (rs : List TrancheBal) (kv : String × CFilterVal) : List TrancheBal :=
  match field_mapping kv.1 with
  | some attr =>
    match kv.2 with
    | .list qs => rs.filter (fun r => qs.any (fun q => decide (getTB r attr = q)))
    | .num q => rs.filter (fun r => decide (getTB r attr = q))
  | none =>
    if kv.1 = "cycle_cde" then
      match kv.2 with
      | .list qs => rs.filter (fun r => qs.any (fun q => decide ((r.cycle_cde : ℚ) = q)))
      | .num q => rs.filter (fun r => decide ((r.cycle_cde : ℚ) = q))
    else rs

/-- `DynamicSubqueryBuilder._apply_filters` (calculation_builder.py lines
169-192). -/
def applyFiltersCalc (cfg : CalculationConfig) (rows : List TrancheBal) : List TrancheBal :=
  let rows1 := cycleFilterCalc cfg.cycle_filter rows
  match cfg.filters with
  | none => rows1
  | some entries => entries.foldl calcFilterStep rows1

/-- The aggregate select expression built by `_build_deal_level_query`
(one constructor per `calculation_type` branch). -/
inductive DealCalcExpr
  | sumE (t : TBField)
  | avgE (t : TBField)
  | wavgE (t w : TBField)
  | countE (t : TBField)
  | minE (t : TBField)
  | maxE (t : TBField)
  | ratioE (t d : TBField)
  | pctE (t d : TBField)
deriving DecidableEq, Repr

/-- The select-expression construction of `_build_deal_level_query`
(calculation_builder.py lines 80-121), including its fail-fast `ValueError`s
and the `field_mapping` lookups of the secondary fields. -/
def resolveDealCalc (cfg : CalculationConfig) (t : TBField) : Except BuildError DealCalcExpr :=
  match cfg.calculation_type with
  | .sum => .ok (.sumE t)
  | .avg => .ok (.avgE t)
  | .weighted_avg =>
    if strFalsy cfg.weight_field then .error (.valueError "Weighted average requires weight_field")
    else do
      let w ← lookupTB cfg.weight_field
      .ok (.wavgE t w)
  | .count => .ok (.countE t)
  | .min => .ok (.minE t)
  | .max => .ok (.maxE t)
  | .ratio =>
    if strFalsy cfg.denominator_field then .error (.valueError "Ratio requires denominator_field")
    else do
      let d ← lookupTB cfg.denominator_field
      .ok (.ratioE t d)
  | .percentage =>
    if strFalsy cfg.denominator_field then .error (.valueError "Percentage requires denominator_field")
    else do
      let d ← lookupTB cfg.denominator_field
      .ok (.pctE t d)

/-- SQL `NULLIF(x, 0)`. -/
def nullif (x : ℚ) : Option ℚ := if x = 0 then none else some x

/-- SQL `MIN` over a finite column: NULL on an empty set. -/
def listMin (l : List ℚ) : Option ℚ :=
  l.foldl (fun acc q =>
    match acc with
    | none => some q
    | some m => some (Min.min m q)) none

/-- SQL `MAX` over a finite column: NULL on an empty set. -/
def listMax (l : List ℚ) : Option ℚ :=
  l.foldl (fun acc q =>
    match acc with
    | none => some q
    | some m => some (Max.max m q)) none

/-- Evaluation of one deal-level aggregate expression over the rows of one
`dl_nbr` group; `none` is SQL NULL, produced by the `NULLIF` zero-guards of
the weighted-average / ratio / percentage branches (and by aggregates of an
empty set, which cannot arise for a GROUP BY group). -/
def evalDealCalc (e : DealCalcExpr) (rows : List TrancheBal) : Option ℚ :=
  match e with
  | .sumE t => if rows.isEmpty then none else some ((rows.map (fun r => getTB r t)).sum)
  | .avgE t =>
    if rows.isEmpty then none
    else some ((rows.map (fun r => getTB r t)).sum / rows.length)
  | .wavgE t w =>
    (nullif ((rows.map (fun r => getTB r w)).sum)).map
      (fun s => ((rows.map (fun r => getTB r t * getTB r w)).sum) / s)
  | .countE _ => some (rows.length : ℚ)
  | .minE t => listMin (rows.map (fun r => getTB r t))
  | .maxE t => listMax (rows.map (fun r => getTB r t))
  | .ratioE t d =>
    (nullif ((rows.map (fun r => getTB r d)).sum)).map
      (fun s => ((rows.map (fun r => getTB r t)).sum) / s)
  | .pctE t d =>
    (nullif ((rows.map (fun r => getTB r d)).sum)).map
      (fun s => ((rows.map (fun r => getTB r t)).sum) / s * 100)

/-- The per-row select expression built by `_build_tranche_level_query`
(calculation_builder.py lines 146-157): only `ratio` and `percentage` get a
computed expression; every other type (including `sum` and
`weighted_avg`) selects the raw target column. -/
inductive TrancheCalcExpr
  | plainT (t : TBField)
  | ratioT (t d : TBField)
  | pctT (t d : TBField)
deriving DecidableEq, Repr

/-- Select-expression construction of `_build_tranche_level_query`.  Note
it performs no `weight_field` check, and its `ratio`/`percentage` branches
index `field_mapping` with the raw (possibly `None`) denominator key. -/
def resolveTrancheCalc (cfg : CalculationConfig) (t : TBField) : Except BuildError TrancheCalcExpr :=
  if cfg.calculation_type = .sum ∨ cfg.calculation_type = .ratio ∨
      cfg.calculation_type = .percentage then
    match cfg.calculation_type with
    | .ratio => do
      let d ← lookupTB cfg.denominator_field
      .ok (.ratioT t d)
    | .percentage => do
      let d ← lookupTB cfg.denominator_field
      .ok (.pctT t d)
    | _ => .ok (.plainT t)
  else .ok (.plainT t)

/-- Evaluation of one tranche-level select expression on a single fact row:
`NULLIF(denominator, 0)` guards the per-row divisions. -/
def evalTrancheCalc (e : TrancheCalcExpr) (r : TrancheBal) : Option ℚ :=
  match e with
  | .plainT t => some (getTB r t)
  | .ratioT t d => (nullif (getTB r d)).map (fun x => getTB r t / x)
  | .pctT t d => (nullif (getTB r d)).map (fun x => getTB r t / x * 100)

/-- The distinct `dl_nbr` group keys produced by `GROUP BY
tranche_bal.dl_nbr` over the filtered facts. -/
def dealGroupKeys (rows : List TrancheBal) : List Int := (rows.map (fun r => r.dl_nbr)).dedup

/-- The rows of one deal group. -/
def dealGroupRows (rows : List TrancheBal) (k : Int) : List TrancheBal :=
  rows.filter (fun r => decide (r.dl_nbr = k))

/-- The materialized relation a calculation subquery denotes: deal-level
subqueries carry `(dl_nbr, value)` rows, tranche-level subqueries carry
`(dl_nbr, tr_id, cycle_cde, value)` rows. -/
inductive QuerySubresult
  | dealRows (rows : List (Int × Option ℚ))
  | trancheRows (rows : List (Int × String × Int × Option ℚ))
deriving DecidableEq, Repr

/-- `DynamicSubqueryBuilder.build_calculation_subquery`
(calculation_builder.py lines 60-72) under list semantics: resolve the
target column (a raising dict lookup), dispatch on the aggregation level,
apply the config filters, and for the deal level group by `dl_nbr` while the
tranche level emits one output row per filtered fact row. -/
def build_calculation_subquery (cfg : CalculationConfig) (facts : List TrancheBal) :
    Except BuildError QuerySubresult := do
  let t ← lookupTB (some cfg.target_field)
  match cfg.aggregation_level with
  | .deal => do
    let e ← resolveDealCalc cfg t
    let filtered := applyFiltersCalc cfg facts
    .ok (.dealRows ((dealGroupKeys filtered).map
      (fun k => (k, evalDealCalc e (dealGroupRows filtered k)))))
  | .tranche => do
    let e ← resolveTrancheCalc cfg t
    let filtered := applyFiltersCalc cfg facts
    .ok (.trancheRows (filtered.map
      (fun r => (r.dl_nbr, r.tr_id, r.cycle_cde, evalTrancheCalc e r))))

/-- `SavedCalculation` (app/models/calculations.py): the storage form of a
calculation configuration (persistence metadata that never reaches the
builder is limited to the fields the conversion functions write). -/
structure SavedCalculation where
  name : String
  description : Option String
  calculation_type : String
  target_field : String
  aggregation_level : String
  weight_field : Option String
  denominator_field : Option String
  cycle_filter : Option Int
  filters : Option (List (String × CFilterVal))
  created_by : Option String
  is_public : Bool
deriving DecidableEq, Repr

/-- `SavedCalculation.from_calculation_config` (calculations.py lines 57-73). -/
def from_calculation_config (config : CalculationConfig) (name : String)
    (description : Option String) (created_by : Option String) (is_public : Bool) :
    SavedCalculation :=
  { name := name
    description := description
    calculation_type := config.calculation_type.value
    target_field := config.target_field
    aggregation_level := config.aggregation_level.value
    weight_field := config.weight_field
    denominator_field := config.denominator_field
    cycle_filter := config.cycle_filter
    filters := config.filters
    created_by := created_by
    is_public := is_public }

/-- `SavedCalculation.to_calculation_config` (calculations.py lines 42-55);
`CalculationType(...)` / `AggregationLevel(...)` raise on unknown value
strings, hence the `Option`. -/
def to_calculation_config (sc : SavedCalculation) : Option CalculationConfig := do
  let ct ← CalculationType.ofValue sc.calculation_type
  let al ← AggregationLevel.ofValue sc.aggregation_level
  some
    { name := sc.name
      calculation_type := ct
      target_field := sc.target_field
      aggregation_level := al
      weight_field := sc.weight_field
      denominator_field := sc.denominator_field
      filters := sc.filters
      cycle_filter := sc.cycle_filter }

/-- The select expression recorded for one composed calculation: the
resolved deal-level or tranche-level expression. -/
inductive CalcExprRep
  | dealE (e : DealCalcExpr)
  | trancheE (e : TrancheCalcExpr)
deriving DecidableEq, Repr

/-- The join key `add_calculation_to_query` chooses from the descriptor's
own aggregation level (calculation_builder.py lines 199-207). -/
inductive JoinKey
  | onDeal
  | onTranche
deriving DecidableEq, Repr

/-- One outer join added by `add_calculation_to_query`: the descriptor, the
join key, and the subquery's select expression; the added result column is
aliased to `cfg.name`. -/
structure CalcJoin where
  cfg : CalculationConfig
  key : JoinKey
  expr : CalcExprRep
deriving DecidableEq, Repr

/-- The query object `CalculationManager.create_enhanced_query` returns:
the base entity plus one left outer join per calculation. -/
structure ComposedQuery where
  base : String
  joins : List CalcJoin
deriving DecidableEq, Repr

/-- The building work `add_calculation_to_query` triggers for one
calculation (everything of `build_calculation_subquery` that can raise). -/
def buildCalcJoin (cfg : CalculationConfig) : Except BuildError CalcJoin := do
  let t ← lookupTB (some cfg.target_field)
  match cfg.aggregation_level with
  | .deal => do
    let e ← resolveDealCalc cfg t
    .ok { cfg := cfg, key := .onDeal, expr := .dealE e }
  | .tranche => do
    let e ← resolveTrancheCalc cfg t
    .ok { cfg := cfg, key := .onTranche, expr := .trancheE e }

/-- One loop iteration of `create_enhanced_query`: `add_calculation_to_query`
appends the calculation's join to the running query. -/
def addJoinStep (js : List CalcJoin) (cfg : CalculationConfig) :
    Except BuildError (List CalcJoin) := do
  let j ← buildCalcJoin cfg
  pure (js ++ [j])

/-- `CalculationManager.create_enhanced_query` (calculation_builder.py lines
226-241): an unknown `base_model` raises `ValueError`; each calculation is
then joined in order.  No aggregation-level compatibility check occurs. -/
def create_enhanced_query (base_model : String) (calculations : List CalculationConfig) :
    Except BuildError ComposedQuery := do
  if base_model = "deal" ∨ base_model = "tranche" then
    let joins ← calculations.foldlM addJoinStep []
    .ok { base := base_model, joins := joins }
  else .error (.valueError "base_model must be 'deal' or 'tranche'")

/-- SQL LEFT OUTER JOIN of a running result (base row with accumulated
calculation columns) against a subquery: a base row with no matching
subquery row survives with a NULL column; a base row with matches yields
one output row per match. -/
def leftJoinCols {β σ : Type} (rows : List (β × List (Option ℚ))) (sub : List σ)
    (matchesRow : β → σ → Bool) (valOf : σ → Option ℚ) : List (β × List (Option ℚ)) :=
  rows.flatMap (fun bc =>
    match sub.filter (matchesRow bc.1) with
    | [] => [(bc.1, bc.2 ++ [none])]
    | ms => ms.map (fun s => (bc.1, bc.2 ++ [valOf s])))

/-- Outcomes of running a composed query: a build exception, or invalid
generated SQL (the join condition references a table that is not in the
query's FROM clause, which the store rejects). -/
inductive RunError
  | buildErr (e : BuildError)
  | invalidJoin
deriving DecidableEq, Repr

/-- One `add_calculation_to_query` step on a deal base query: a deal-level
subquery is left-joined on `Deal.dl_nbr = sub.dl_nbr`; a tranche-level
subquery's join condition references the tranche table, which a plain deal
base query does not contain, so the store rejects the generated SQL. -/
def dealJoinStep (facts : List TrancheBal) (acc : List (Deal × List (Option ℚ)))
    (cfg : CalculationConfig) : Except RunError (List (Deal × List (Option ℚ))) :=
  match build_calculation_subquery cfg facts with
  | .error e => .error (.buildErr e)
  | .ok (.dealRows s) =>
    .ok (leftJoinCols acc s (fun d p => decide (p.1 = d.dl_nbr)) (fun p => p.2))
  | .ok (.trancheRows _) => .error .invalidJoin

/-- Running `create_enhanced_query("deal", cfgs)` against the fact table. -/
def runEnhancedDeal (deals : List Deal) (cfgs : List CalculationConfig)
    (facts : List TrancheBal) : Except RunError (List (Deal × List (Option ℚ))) :=
  cfgs.foldlM (dealJoinStep facts) (deals.map (fun d => (d, [])))

/-- One `add_calculation_to_query` step on a tranche base query: a
tranche-level subquery is left-joined on `Tranche.dl_nbr = sub.dl_nbr AND
Tranche.tr_id = sub.tr_id`; a deal-level subquery's join condition
references the deal table, absent from a plain tranche base query. -/
def trancheJoinStep (facts : List TrancheBal) (acc : List (Tranche × List (Option ℚ)))
    (cfg : CalculationConfig) : Except RunError (List (Tranche × List (Option ℚ))) :=
  match build_calculation_subquery cfg facts with
  | .error e => .error (.buildErr e)
  | .ok (.trancheRows s) =>
    .ok (leftJoinCols acc s
      (fun t p => decide (p.1 = t.dl_nbr) && decide (p.2.1 = t.tr_id)) (fun p => p.2.2.2))
  | .ok (.dealRows _) => .error .invalidJoin

/-- Running `create_enhanced_query("tranche", cfgs)` against the fact table. -/
def runEnhancedTranche (tranches : List Tranche) (cfgs : List CalculationConfig)
    (facts : List TrancheBal) : Except RunError (List (Tranche × List (Option ℚ))) :=
  cfgs.foldlM (trancheJoinStep facts) (tranches.map (fun t => (t, [])))

/-- The value a left join contributes for one base row: the value of the
first matching subquery row, NULL when there is none. -/
def joinLookup {σ : Type} (sub : List σ) (m : σ → Bool) (valOf : σ → Option ℚ) : Option ℚ :=
  match sub.find? m with
  | some s => valOf s
  | none => none

/-- The value the composed deal query shows for one calculation at one base
deal: the value of the unique matching subquery row, NULL when the deal has
no group in the subquery. -/
def dealCalcLookup (cfg : CalculationConfig) (facts : List TrancheBal) (k : Int) : Option ℚ :=
  match build_calculation_subquery cfg facts with
  | .ok (.dealRows s) => joinLookup s (fun p => decide (p.1 = k)) (fun p => p.2)
  | _ => none

/-- The value the composed tranche query shows for one calculation at one
base tranche. -/
def trancheCalcLookup (cfg : CalculationConfig) (facts : List TrancheBal)
    (dl : Int) (tr : String) : Option ℚ :=
  match build_calculation_subquery cfg facts with
  | .ok (.trancheRows s) =>
    joinLookup s (fun p => decide (p.1 = dl) && decide (p.2.1 = tr)) (fun p => p.2.2.2)
  | _ => none

/-- The aggregation-level validation of the report-execution API route
(app/api/reports.py lines 231-237): every calculation must sit at the
report's aggregation level, otherwise an HTTP 400 error is raised. -/
def checkLevels (lvl : AggregationLevel) (cfgs : List CalculationConfig) :
    Except String Unit :=
  match cfgs.find? (fun c => decide (c.aggregation_level ≠ lvl)) with
  | some _ => .error ("All calculations must be at " ++ lvl.value ++ " level")
  | none => .ok ()

/-- The execute slice of the API route (app/api/reports.py lines 230-246):
validate the levels, then compose via `create_enhanced_query` on the base
named by the report's aggregation level. -/
def apiExecuteCalcs (lvl : AggregationLevel) (cfgs : List CalculationConfig) :
    Except String ComposedQuery := do
  checkLevels lvl cfgs
  match create_enhanced_query lvl.value cfgs with
  | .ok q => .ok q
  | .error _ => .error "Error executing report"

/-- The predicate one filter entry of a calculation config imposes on a fact
row: an equality (or membership) test on the resolved column, the reserved
`cycle_cde` test, or no restriction for an unrecognized name. -/
def entryHolds (kv : String × CFilterVal) (r : TrancheBal) : Bool :=
  match field_mapping kv.1 with
  | some attr =>
    match kv.2 with
    | .list qs => qs.any (fun q => decide (getTB r attr = q))
    | .num q => decide (getTB r attr = q)
  | none =>
    if kv.1 = "cycle_cde" then
      match kv.2 with
      | .list qs => qs.any (fun q => decide ((r.cycle_cde : ℚ) = q))
      | .num q => decide ((r.cycle_cde : ℚ) = q)
    else true

lemma nullif_map {α : Type} (y : ℚ) (f : ℚ → α) :
    (nullif y).map f = if y = 0 then none else some (f y) := by
  by_cases h : y = 0 <;> simp [nullif, h]

lemma filterStep_eq_filter (rs : List TrancheBal) (kv : String × CFilterVal) :
    calcFilterStep rs kv = rs.filter (fun r => entryHolds kv r) := by
  unfold calcFilterStep
  obtain ⟨k, v⟩ := kv
  cases hm : field_mapping k with
  | some attr => cases v <;> simp [entryHolds, hm]
  | none =>
    by_cases hc : k = "cycle_cde"
    · subst hc
      cases v <;> simp [entryHolds, hm]
    · cases v <;> simp [entryHolds, hm, hc]

lemma foldl_filter_eq_filter_all {α β : Type} (p : β → α → Bool) (entries : List β)
    (rows : List α) :
    entries.foldl (fun rs e => rs.filter (p e)) rows
      = rows.filter (fun r => entries.all (fun e => p e r)) := by
  induction entries generalizing rows with
  | nil => simp
  | cons e es ih =>
    simp only [List.foldl_cons, ih, List.filter_filter, List.all_cons]
    apply List.filter_congr
    intro a _
    exact Bool.and_comm _ _

lemma applyFiltersCalc_foldl (entries : List (String × CFilterVal))
    (rows1 : List TrancheBal) :
    entries.foldl calcFilterStep rows1
      = rows1.filter (fun r => entries.all (fun kv => entryHolds kv r)) := by
  have hstep : calcFilterStep
      = fun rs kv => rs.filter (fun r => entryHolds kv r) := by
    funext rs kv
    exact filterStep_eq_filter rs kv
  rw [hstep, foldl_filter_eq_filter_all]

/-- C7 (amended): for a *nonzero* cycle filter the built subquery restricts
the facts with an equality predicate on the period column, and each filters
entry imposes its equality (or membership) predicate on its resolved column
(entries that resolve to neither a mapped field nor the reserved
`cycle_cde` impose no predicate); all predicates are conjoined. -/
theorem claim7_cycle_and_filter_predicates (cfg : CalculationConfig)
    (facts : List TrancheBal) (c : Int) (hc : cfg.cycle_filter = some c) (h0 : c ≠ 0) :
    applyFiltersCalc cfg facts
      = facts.filter (fun r =>
          decide (r.cycle_cde = c) &&
          (cfg.filters.getD []).all (fun kv => entryHolds kv r)) := by
  have h1 : cycleFilterCalc cfg.cycle_filter facts
      = facts.filter (fun r => decide (r.cycle_cde = c)) := by
    rw [hc]
    simp [cycleFilterCalc, h0]
  unfold applyFiltersCalc
  rw [h1]
  cases hf : cfg.filters with
  | none => simp
  | some entries =>
    simp only [Option.getD_some]
    rw [applyFiltersCalc_foldl, List.filter_filter]
    apply List.filter_congr
    intro a _
    exact Bool.and_comm _ _

/-- Witness for C7 at a concrete config: a cycle filter of 5 plus one
mapped filter entry reduce to the conjoined row predicate. -/
theorem claim7_cycle_and_filter_predicates_witness :
    (CalculationConfig.cycle_filter
        ⟨"c", .sum, "ending_balance", .deal, none, none,
          some [("principal_distribution", .num 3)], some 5⟩ = some 5)
    ∧ ((5 : Int) ≠ 0)
    ∧ applyFiltersCalc
        ⟨"c", .sum, "ending_balance", .deal, none, none,
          some [("principal_distribution", .num 3)], some 5⟩
        [⟨1, "A", 5, 1, 0, 0, 0, 0, 3, 0, 0⟩, ⟨1, "A", 4, 1, 0, 0, 0, 0, 3, 0, 0⟩]
      = List.filter (fun r =>
          decide (r.cycle_cde = 5) &&
          ((some [("principal_distribution", CFilterVal.num 3)]).getD []).all
            (fun kv => entryHolds kv r))
        [⟨1, "A", 5, 1, 0, 0, 0, 0, 3, 0, 0⟩, ⟨1, "A", 4, 1, 0, 0, 0, 0, 3, 0, 0⟩] :=
  ⟨rfl, by decide,
    claim7_cycle_and_filter_predicates _ _ 5 rfl (by decide)⟩

/-- Counterexample for C7 as stated: a cycle filter of 0 (an integer period
value the claim includes) applies no predicate at all, because
`if config.cycle_filter:` is Python-falsy at 0. -/
theorem claim7_counterexample :
    applyFiltersCalc ⟨"c", .sum, "ending_balance", .deal, none, none, none, some 0⟩
        [⟨1, "A", 0, 5, 0, 0, 0, 0, 0, 0, 0⟩, ⟨1, "A", 1, 7, 0, 0, 0, 0, 0, 0, 0⟩]
      = [⟨1, "A", 0, 5, 0, 0, 0, 0, 0, 0, 0⟩, ⟨1, "A", 1, 7, 0, 0, 0, 0, 0, 0, 0⟩]
    ∧ applyFiltersCalc ⟨"c", .sum, "ending_balance", .deal, none, none, none, some 0⟩
        [⟨1, "A", 0, 5, 0, 0, 0, 0, 0, 0, 0⟩, ⟨1, "A", 1, 7, 0, 0, 0, 0, 0, 0, 0⟩]
      ≠ List.filter (fun r => decide (r.cycle_cde = 0))
          [⟨1, "A", 0, 5, 0, 0, 0, 0, 0, 0, 0⟩, ⟨1, "A", 1, 7, 0, 0, 0, 0, 0, 0, 0⟩] := by
  constructor
  · rfl
  · intro h
    simpa [applyFiltersCalc, cycleFilterCalc] using congrArg List.length h

/-- C9: converting a descriptor to storage form under its own name and back
yields the descriptor itself, hence the built subquery (the generated query)
is identical. -/
theorem claim9_storage_roundtrip (cfg : CalculationConfig)
    (description created_by : Option String) (is_public : Bool) :
    to_calculation_config
        (from_calculation_config cfg cfg.name description created_by is_public) = some cfg
    ∧ ∀ facts, Option.map (fun c => build_calculation_subquery c facts)
        (to_calculation_config
          (from_calculation_config cfg cfg.name description created_by is_public))
        = some (build_calculation_subquery cfg facts) := by
  have h : to_calculation_config
      (from_calculation_config cfg cfg.name description created_by is_public) = some cfg := by
    obtain ⟨n, ct, tf, al, wf, df, fl, cy⟩ := cfg
    cases ct <;> cases al <;> rfl
  exact ⟨h, fun facts => by rw [h]; rfl⟩

/-- C3 (amended): at the deal level, a weighted average without a weight
field and a ratio/percentage without a denominator field raise `ValueError`
before any query exists; at the tranche level, ratio/percentage without a
denominator fail with a `KeyError` lookup of the `None` key, but a
weighted average without a weight field is NOT rejected — it silently
builds the plain per-row target query. -/
theorem claim3_missing_parameter_rejection :
    (∀ (cfg : CalculationConfig) (facts : List TrancheBal),
      cfg.aggregation_level = .deal → cfg.calculation_type = .weighted_avg →
      strFalsy cfg.weight_field = true → (field_mapping cfg.target_field).isSome = true →
      build_calculation_subquery cfg facts
        = .error (.valueError "Weighted average requires weight_field"))
    ∧ (∀ (cfg : CalculationConfig) (facts : List TrancheBal),
      cfg.aggregation_level = .deal → cfg.calculation_type = .ratio →
      strFalsy cfg.denominator_field = true → (field_mapping cfg.target_field).isSome = true →
      build_calculation_subquery cfg facts
        = .error (.valueError "Ratio requires denominator_field"))
    ∧ (∀ (cfg : CalculationConfig) (facts : List TrancheBal),
      cfg.aggregation_level = .deal → cfg.calculation_type = .percentage →
      strFalsy cfg.denominator_field = true → (field_mapping cfg.target_field).isSome = true →
      build_calculation_subquery cfg facts
        = .error (.valueError "Percentage requires denominator_field"))
    ∧ (∀ (cfg : CalculationConfig) (facts : List TrancheBal),
      cfg.aggregation_level = .tranche →
      (cfg.calculation_type = .ratio ∨ cfg.calculation_type = .percentage) →
      cfg.denominator_field = none → (field_mapping cfg.target_field).isSome = true →
      build_calculation_subquery cfg facts = .error (.keyError none))
    ∧ (∀ (cfg : CalculationConfig) (facts : List TrancheBal) (t : TBField),
      cfg.aggregation_level = .tranche → cfg.calculation_type = .weighted_avg →
      field_mapping cfg.target_field = some t →
      build_calculation_subquery cfg facts
        = .ok (.trancheRows ((applyFiltersCalc cfg facts).map
            (fun r => (r.dl_nbr, r.tr_id, r.cycle_cde, some (getTB r t)))))) := by
  refine ⟨?_, ?_, ?_, ?_, ?_⟩
  · intro cfg facts hl hty hw ht
    obtain ⟨t, htf⟩ := Option.isSome_iff_exists.mp ht
    simp [build_calculation_subquery, lookupTB, htf, hl, resolveDealCalc, hty, hw,
      Bind.bind, Except.bind]
  · intro cfg facts hl hty hd ht
    obtain ⟨t, htf⟩ := Option.isSome_iff_exists.mp ht
    simp [build_calculation_subquery, lookupTB, htf, hl, resolveDealCalc, hty, hd,
      Bind.bind, Except.bind]
  · intro cfg facts hl hty hd ht
    obtain ⟨t, htf⟩ := Option.isSome_iff_exists.mp ht
    simp [build_calculation_subquery, lookupTB, htf, hl, resolveDealCalc, hty, hd,
      Bind.bind, Except.bind]
  · intro cfg facts hl hty hd ht
    obtain ⟨t, htf⟩ := Option.isSome_iff_exists.mp ht
    rcases hty with h | h <;>
      simp [build_calculation_subquery, lookupTB, htf, hl, resolveTrancheCalc, h, hd,
        Bind.bind, Except.bind]
  · intro cfg facts t hl hty htf
    simp [build_calculation_subquery, lookupTB, htf, hl, resolveTrancheCalc, hty,
      evalTrancheCalc, Bind.bind, Except.bind]

/-- Witness for C3 (amended) at concrete configs: the deal-level rejection
fires, the tranche-level ratio lookup raises, and the tranche-level
weighted average without a weight field builds successfully. -/
theorem claim3_missing_parameter_rejection_witness :
    strFalsy (none : Option String) = true
    ∧ build_calculation_subquery
        ⟨"w", .weighted_avg, "pass_through_rate", .deal, none, none, none, none⟩ []
        = .error (.valueError "Weighted average requires weight_field")
    ∧ build_calculation_subquery
        ⟨"r", .ratio, "ending_balance", .tranche, none, none, none, none⟩ []
        = .error (.keyError none)
    ∧ build_calculation_subquery
        ⟨"w2", .weighted_avg, "pass_through_rate", .tranche, none, none, none, none⟩ []
        = .ok (.trancheRows []) := by
  refine ⟨rfl, ?_, ?_, ?_⟩
  · exact claim3_missing_parameter_rejection.1 _ [] rfl rfl rfl rfl
  · exact claim3_missing_parameter_rejection.2.2.2.1 _ [] rfl (Or.inl rfl) rfl rfl
  · simpa [applyFiltersCalc, cycleFilterCalc] using
      claim3_missing_parameter_rejection.2.2.2.2
        ⟨"w2", .weighted_avg, "pass_through_rate", .tranche, none, none, none, none⟩
        [] .tr_pass_thru_rte rfl rfl rfl

/-- Counterexample for C3 as stated: a tranche-level weighted-average
descriptor with `weight_field = None` is not rejected at all — the build
succeeds and returns the raw target column per row. -/
theorem claim3_counterexample :
    build_calculation_subquery
        ⟨"wavg_rate", .weighted_avg, "pass_through_rate", .tranche, none, none, none, none⟩
        [⟨1, "A", 202412, 100, 0, 5, 0, 0, 0, 0, 0⟩]
      = .ok (.trancheRows [(1, "A", 202412, some 5)]) := by
  rfl

/-- C2 (amended): a tranche-level build does not group at all — it returns
one output row per *filtered fact row*, with columns (deal number, tranche
id, cycle code, value aliased to the name): the value is the raw target for
every type except `ratio` and `percentage`, which compute a per-row
zero-guarded division. -/
theorem claim2_tranche_build_shape :
    (∀ (cfg : CalculationConfig) (facts : List TrancheBal) (t : TBField),
      cfg.aggregation_level = .tranche → field_mapping cfg.target_field = some t →
      cfg.calculation_type ≠ .ratio → cfg.calculation_type ≠ .percentage →
      build_calculation_subquery cfg facts
        = .ok (.trancheRows ((applyFiltersCalc cfg facts).map
            (fun r => (r.dl_nbr, r.tr_id, r.cycle_cde, some (getTB r t))))))
    ∧ (∀ (cfg : CalculationConfig) (facts : List TrancheBal) (t d : TBField),
      cfg.aggregation_level = .tranche → field_mapping cfg.target_field = some t →
      cfg.calculation_type = .ratio → lookupTB cfg.denominator_field = .ok d →
      build_calculation_subquery cfg facts
        = .ok (.trancheRows ((applyFiltersCalc cfg facts).map
            (fun r => (r.dl_nbr, r.tr_id, r.cycle_cde,
              if getTB r d = 0 then none else some (getTB r t / getTB r d))))))
    ∧ (∀ (cfg : CalculationConfig) (facts : List TrancheBal) (t d : TBField),
      cfg.aggregation_level = .tranche → field_mapping cfg.target_field = some t →
      cfg.calculation_type = .percentage → lookupTB cfg.denominator_field = .ok d →
      build_calculation_subquery cfg facts
        = .ok (.trancheRows ((applyFiltersCalc cfg facts).map
            (fun r => (r.dl_nbr, r.tr_id, r.cycle_cde,
              if getTB r d = 0 then none
              else some (getTB r t / getTB r d * 100)))))) := by
  refine ⟨?_, ?_, ?_⟩
  · intro cfg facts t hl htf hr hp
    cases hty : cfg.calculation_type
    all_goals first
      | exact absurd hty hr
      | exact absurd hty hp
      | simp [build_calculation_subquery, lookupTB, htf, hl, resolveTrancheCalc, hty,
          evalTrancheCalc, Bind.bind, Except.bind]
  · intro cfg facts t d hl htf hty hd
    have htl : lookupTB (some cfg.target_field) = .ok t := by simp [lookupTB, htf]
    simp [build_calculation_subquery, htl, hl, resolveTrancheCalc, hty, hd,
      evalTrancheCalc, nullif_map, Bind.bind, Except.bind]
  · intro cfg facts t d hl htf hty hd
    have htl : lookupTB (some cfg.target_field) = .ok t := by simp [lookupTB, htf]
    simp [build_calculation_subquery, htl, hl, resolveTrancheCalc, hty, hd,
      evalTrancheCalc, nullif_map, Bind.bind, Except.bind]

/-- Witness for C2 (amended): a concrete tranche-level `sum` descriptor
emits the raw per-row target values. -/
theorem claim2_tranche_build_shape_witness :
    (CalculationConfig.aggregation_level
        ⟨"bal", .sum, "ending_balance", .tranche, none, none, none, none⟩ = .tranche)
    ∧ build_calculation_subquery
        ⟨"bal", .sum, "ending_balance", .tranche, none, none, none, none⟩
        [⟨1, "A", 7, 5, 0, 0, 0, 0, 0, 0, 0⟩]
      = .ok (.trancheRows [(1, "A", 7, some 5)]) := by
  constructor
  · rfl
  · have h := claim2_tranche_build_shape.1
      ⟨"bal", .sum, "ending_balance", .tranche, none, none, none, none⟩
      [⟨1, "A", 7, 5, 0, 0, 0, 0, 0, 0, 0⟩] .tr_end_bal_amt rfl rfl
      (by decide) (by decide)
    simpa [applyFiltersCalc, cycleFilterCalc, getTB] using h

/-- Counterexample for C2 as stated: a tranche-level `sum` over two facts of
the same (deal, tranche) yields two rows carrying the raw values and an
extra cycle column — not one grouped row per (deal number, tranche id) with
the aggregate 12. -/
theorem claim2_counterexample :
    build_calculation_subquery
        ⟨"bal", .sum, "ending_balance", .tranche, none, none, none, none⟩
        [⟨1, "A", 1, 5, 0, 0, 0, 0, 0, 0, 0⟩, ⟨1, "A", 2, 7, 0, 0, 0, 0, 0, 0, 0⟩]
      = .ok (.trancheRows [(1, "A", 1, some 5), (1, "A", 2, some 7)])
    ∧ ([((1 : Int), "A", (1 : Int), some (5 : ℚ)), (1, "A", 2, some 7)].map
        (fun p => (p.1, p.2.1))).dedup = [(1, "A")] := by
  constructor
  · rfl
  · rfl

/-- C4 (amended): a zero weight/denominator sum never raises and yields
NULL — for weighted average, ratio and percentage at the deal level (per
`dl_nbr` group) and for ratio and percentage at the tranche level (per fact
row, whose single denominator value plays the role of the group sum).  The
tranche-level weighted average, by contrast, performs no division at all:
its value is the raw target (see the C3/C2 theorems), so the all-zero
weight group produces the target value rather than NULL there. -/
theorem claim4_zero_guard_null :
    (∀ (cfg : CalculationConfig) (facts : List TrancheBal) (t w : TBField)
      (rows : List (Int × Option ℚ)),
      cfg.aggregation_level = .deal → cfg.calculation_type = .weighted_avg →
      field_mapping cfg.target_field = some t → strFalsy cfg.weight_field = false →
      lookupTB cfg.weight_field = .ok w →
      build_calculation_subquery cfg facts = .ok (.dealRows rows) →
      ∀ k v, (k, v) ∈ rows →
        ((dealGroupRows (applyFiltersCalc cfg facts) k).map (fun r => getTB r w)).sum = 0 →
        v = none)
    ∧ (∀ (cfg : CalculationConfig) (facts : List TrancheBal) (t d : TBField)
      (rows : List (Int × Option ℚ)),
      cfg.aggregation_level = .deal → cfg.calculation_type = .ratio →
      field_mapping cfg.target_field = some t → strFalsy cfg.denominator_field = false →
      lookupTB cfg.denominator_field = .ok d →
      build_calculation_subquery cfg facts = .ok (.dealRows rows) →
      ∀ k v, (k, v) ∈ rows →
        ((dealGroupRows (applyFiltersCalc cfg facts) k).map (fun r => getTB r d)).sum = 0 →
        v = none)
    ∧ (∀ (cfg : CalculationConfig) (facts : List TrancheBal) (t d : TBField)
      (rows : List (Int × Option ℚ)),
      cfg.aggregation_level = .deal → cfg.calculation_type = .percentage →
      field_mapping cfg.target_field = some t → strFalsy cfg.denominator_field = false →
      lookupTB cfg.denominator_field = .ok d →
      build_calculation_subquery cfg facts = .ok (.dealRows rows) →
      ∀ k v, (k, v) ∈ rows →
        ((dealGroupRows (applyFiltersCalc cfg facts) k).map (fun r => getTB r d)).sum = 0 →
        v = none)
    ∧ (∀ (cfg : CalculationConfig) (facts : List TrancheBal) (t d : TBField)
      (rows : List (Int × String × Int × Option ℚ)),
      cfg.aggregation_level = .tranche →
      (cfg.calculation_type = .ratio ∨ cfg.calculation_type = .percentage) →
      field_mapping cfg.target_field = some t →
      lookupTB cfg.denominator_field = .ok d →
      build_calculation_subquery cfg facts = .ok (.trancheRows rows) →
      ∀ r ∈ applyFiltersCalc cfg facts, getTB r d = 0 →
        (r.dl_nbr, r.tr_id, r.cycle_cde, (none : Option ℚ)) ∈ rows) := by
  have hdeal : ∀ (cfg : CalculationConfig) (facts : List TrancheBal) (t : TBField)
      (e : DealCalcExpr) (rows : List (Int × Option ℚ)),
      lookupTB (some cfg.target_field) = .ok t →
      cfg.aggregation_level = .deal →
      resolveDealCalc cfg t = .ok e →
      build_calculation_subquery cfg facts = .ok (.dealRows rows) →
      rows = (dealGroupKeys (applyFiltersCalc cfg facts)).map
        (fun k => (k, evalDealCalc e (dealGroupRows (applyFiltersCalc cfg facts) k))) := by
    intro cfg facts t e rows htl hl hres hb
    have hb2 : (Except.ok (QuerySubresult.dealRows rows) : Except BuildError QuerySubresult)
        = .ok (.dealRows ((dealGroupKeys (applyFiltersCalc cfg facts)).map
            (fun k => (k, evalDealCalc e (dealGroupRows (applyFiltersCalc cfg facts) k))))) := by
      rw [← hb]
      simp [build_calculation_subquery, htl, hl, hres, Bind.bind, Except.bind]
    exact (QuerySubresult.dealRows.injEq _ _).mp ((Except.ok.injEq _ _).mp hb2)
  refine ⟨?_, ?_, ?_, ?_⟩
  · intro cfg facts t w rows hl hty htf hwf hw hb k v hmem hsum
    have htl : lookupTB (some cfg.target_field) = .ok t := by simp [lookupTB, htf]
    have hres : resolveDealCalc cfg t = .ok (.wavgE t w) := by
      simp [resolveDealCalc, hty, hwf, hw, Bind.bind, Except.bind]
    have hrw := hdeal cfg facts t (.wavgE t w) rows htl hl hres hb
    subst hrw
    obtain ⟨k2, hk2, heq⟩ := List.mem_map.mp hmem
    obtain ⟨hkk, hvv⟩ := Prod.mk.injEq _ _ _ _ ▸ heq
    subst hkk
    rw [← hvv]
    simp [evalDealCalc, hsum, nullif]
  · intro cfg facts t d rows hl hty htf hdf hd hb k v hmem hsum
    have htl : lookupTB (some cfg.target_field) = .ok t := by simp [lookupTB, htf]
    have hres : resolveDealCalc cfg t = .ok (.ratioE t d) := by
      simp [resolveDealCalc, hty, hdf, hd, Bind.bind, Except.bind]
    have hrw := hdeal cfg facts t (.ratioE t d) rows htl hl hres hb
    subst hrw
    obtain ⟨k2, hk2, heq⟩ := List.mem_map.mp hmem
    obtain ⟨hkk, hvv⟩ := Prod.mk.injEq _ _ _ _ ▸ heq
    subst hkk
    rw [← hvv]
    simp [evalDealCalc, hsum, nullif]
  · intro cfg facts t d rows hl hty htf hdf hd hb k v hmem hsum
    have htl : lookupTB (some cfg.target_field) = .ok t := by simp [lookupTB, htf]
    have hres : resolveDealCalc cfg t = .ok (.pctE t d) := by
      simp [resolveDealCalc, hty, hdf, hd, Bind.bind, Except.bind]
    have hrw := hdeal cfg facts t (.pctE t d) rows htl hl hres hb
    subst hrw
    obtain ⟨k2, hk2, heq⟩ := List.mem_map.mp hmem
    obtain ⟨hkk, hvv⟩ := Prod.mk.injEq _ _ _ _ ▸ heq
    subst hkk
    rw [← hvv]
    simp [evalDealCalc, hsum, nullif]
  · intro cfg facts t d rows hl hty htf hd hb r hr hz
    have hbb : build_calculation_subquery cfg facts
        = .ok (.trancheRows ((applyFiltersCalc cfg facts).map
            (fun r => (r.dl_nbr, r.tr_id, r.cycle_cde,
              evalTrancheCalc (match cfg.calculation_type with
                | .percentage => .pctT t d
                | _ => .ratioT t d) r)))) := by
      have htl : lookupTB (some cfg.target_field) = .ok t := by simp [lookupTB, htf]
      rcases hty with h | h <;>
        simp [build_calculation_subquery, htl, hl, resolveTrancheCalc, h, hd,
          Bind.bind, Except.bind]
    rw [hbb] at hb
    have hrows := ((QuerySubresult.trancheRows.injEq _ _).mp
      (Except.ok.injEq _ _ |>.mp hb)).symm
    subst hrows
    have : (r.dl_nbr, r.tr_id, r.cycle_cde,
        evalTrancheCalc (match cfg.calculation_type with
          | .percentage => .pctT t d
          | _ => .ratioT t d) r) = (r.dl_nbr, r.tr_id, r.cycle_cde, (none : Option ℚ)) := by
      rcases hty with h | h <;> simp [h, evalTrancheCalc, hz, nullif]
    exact this ▸ List.mem_map_of_mem _ hr

/-- Witness for C4 (amended): a deal-level weighted average whose only
group has weight sum 0 yields NULL, and a tranche-level percentage row with
denominator 0 yields NULL. -/
theorem claim4_zero_guard_null_witness :
    build_calculation_subquery
        ⟨"wavg", .weighted_avg, "pass_through_rate", .deal, some "ending_balance",
          none, none, none⟩
        [⟨1, "A", 1, 0, 0, 5, 0, 0, 0, 0, 0⟩]
      = .ok (.dealRows [(1, none)])
    ∧ (none : Option ℚ) = none
    ∧ ((1 : Int), "A", (202412 : Int), (none : Option ℚ))
        ∈ [((1 : Int), "A", (202412 : Int), (none : Option ℚ))] := by
  have hb : build_calculation_subquery
      ⟨"wavg", .weighted_avg, "pass_through_rate", .deal, some "ending_balance",
        none, none, none⟩
      [⟨1, "A", 1, 0, 0, 5, 0, 0, 0, 0, 0⟩]
      = .ok (.dealRows [(1, none)]) := by
    simp [build_calculation_subquery, lookupTB, field_mapping, resolveDealCalc, strFalsy,
      applyFiltersCalc, cycleFilterCalc, dealGroupKeys, dealGroupRows, evalDealCalc, getTB,
      List.dedup, nullif, Bind.bind, Except.bind]
  have hb2 : build_calculation_subquery
      ⟨"pct", .percentage, "principal_distribution", .tranche, none,
        some "ending_balance", none, none⟩
      [⟨1, "A", 202412, 0, 0, 0, 0, 0, 5, 0, 0⟩]
      = .ok (.trancheRows [(1, "A", 202412, none)]) := by
    simp [build_calculation_subquery, lookupTB, field_mapping, resolveTrancheCalc,
      applyFiltersCalc, cycleFilterCalc, evalTrancheCalc, getTB, nullif,
      Bind.bind, Except.bind]
  refine ⟨hb, ?_, ?_⟩
  · exact claim4_zero_guard_null.1
      ⟨"wavg", .weighted_avg, "pass_through_rate", .deal, some "ending_balance",
        none, none, none⟩
      [⟨1, "A", 1, 0, 0, 5, 0, 0, 0, 0, 0⟩]
      .tr_pass_thru_rte .tr_end_bal_amt [(1, none)] rfl rfl rfl rfl rfl hb 1 none
      (by simp)
      (by simp [dealGroupRows, applyFiltersCalc, cycleFilterCalc, getTB])
  · have h := claim4_zero_guard_null.2.2.2
      ⟨"pct", .percentage, "principal_distribution", .tranche, none,
        some "ending_balance", none, none⟩
      [⟨1, "A", 202412, 0, 0, 0, 0, 0, 5, 0, 0⟩]
      .tr_prin_dstrb_amt .tr_end_bal_amt [(1, "A", 202412, none)] rfl (Or.inr rfl) rfl rfl
      hb2 ⟨1, "A", 202412, 0, 0, 0, 0, 0, 5, 0, 0⟩
      (by simp [applyFiltersCalc, cycleFilterCalc]) rfl
    exact h

/-- Counterexample for C4 as stated: a *valid* tranche-level weighted
average (weight field present) over a group whose summed weight is 0 does
not yield NULL — the build emits the raw target value 5. -/
theorem claim4_counterexample :
    build_calculation_subquery
        ⟨"wavg", .weighted_avg, "principal_distribution", .tranche, some "ending_balance",
          none, none, none⟩
        [⟨1, "A", 202412, 0, 0, 0, 0, 0, 5, 0, 0⟩]
      = .ok (.trancheRows [(1, "A", 202412, some 5)])
    ∧ some (5 : ℚ) ≠ (none : Option ℚ) := by
  exact ⟨rfl, by simp⟩


lemma find?_eq_head?_filter {α : Type} (p : α → Bool) (l : List α) :
    l.find? p = (l.filter p).head? := by
  induction l with
  | nil => rfl
  | cons a l ih =>
    cases hpa : p a with
    | false =>
      rw [List.find?_cons_of_neg _ (by simp [hpa]), List.filter_cons_of_neg (by simp [hpa])]
      exact ih
    | true =>
      rw [List.find?_cons_of_pos _ hpa, List.filter_cons_of_pos (by simp [hpa])]
      rfl

lemma filter_matches_len_le_one {σ κ : Type} [DecidableEq κ] (sub : List σ) (keyOf : σ → κ)
    (hnd : (sub.map keyOf).Nodup) (m : σ → Bool) (k0 : κ)
    (hm : ∀ s, m s = true ↔ keyOf s = k0) :
    (sub.filter m).length ≤ 1 := by
  induction sub with
  | nil => simp
  | cons a l ih =>
    rw [List.map_cons, List.nodup_cons] at hnd
    obtain ⟨hna, hnl⟩ := hnd
    cases hma : m a with
    | false => simpa [List.filter_cons, hma] using ih hnl
    | true =>
      have hfl : l.filter m = [] := by
        rw [List.filter_eq_nil_iff]
        intro s hs hms
        exact hna (((hm s).mp hms).trans ((hm a).mp hma).symm ▸ List.mem_map_of_mem keyOf hs)
      simp [List.filter_cons, hma, hfl]

lemma leftJoinCols_eq_map {β σ : Type} (rows : List (β × List (Option ℚ))) (sub : List σ)
    (matchesRow : β → σ → Bool) (valOf : σ → Option ℚ)
    (h : ∀ b, (sub.filter (matchesRow b)).length ≤ 1) :
    leftJoinCols rows sub matchesRow valOf
      = rows.map (fun bc => (bc.1, bc.2 ++ [joinLookup sub (matchesRow bc.1) valOf])) := by
  induction rows with
  | nil => rfl
  | cons bc l ih =>
    unfold leftJoinCols at ih ⊢
    rw [List.flatMap_cons, List.map_cons, ih]
    have hhead : (match sub.filter (matchesRow bc.1) with
        | [] => [(bc.1, bc.2 ++ [none])]
        | ms => ms.map (fun s => (bc.1, bc.2 ++ [valOf s])))
        = [(bc.1, bc.2 ++ [joinLookup sub (matchesRow bc.1) valOf])] := by
      unfold joinLookup
      rw [find?_eq_head?_filter]
      cases hf : sub.filter (matchesRow bc.1) with
      | nil => simp
      | cons s rest =>
        have hlen := h bc.1
        rw [hf] at hlen
        have hrest : rest = [] := by
          cases rest with
          | nil => rfl
          | cons x xs => simp at hlen
        subst hrest
        simp
    rw [hhead, List.singleton_append]

lemma build_dealRows_keys_nodup (cfg : CalculationConfig) (facts : List TrancheBal)
    (rows : List (Int × Option ℚ))
    (hb : build_calculation_subquery cfg facts = .ok (.dealRows rows)) :
    (rows.map Prod.fst).Nodup := by
  rcases h1 : lookupTB (some cfg.target_field) with e | t
  · rw [show build_calculation_subquery cfg facts = .error e from by
      simp [build_calculation_subquery, h1, Bind.bind, Except.bind]] at hb
    exact absurd hb (by simp)
  · rcases hl : cfg.aggregation_level
    · rcases h2 : resolveDealCalc cfg t with e | ex
      · rw [show build_calculation_subquery cfg facts = .error e from by
          simp [build_calculation_subquery, h1, hl, h2, Bind.bind, Except.bind]] at hb
        exact absurd hb (by simp)
      · rw [show build_calculation_subquery cfg facts
            = .ok (.dealRows ((dealGroupKeys (applyFiltersCalc cfg facts)).map
              (fun k => (k, evalDealCalc ex (dealGroupRows (applyFiltersCalc cfg facts) k)))))
          from by simp [build_calculation_subquery, h1, hl, h2, Bind.bind, Except.bind]] at hb
        have hrows := (QuerySubresult.dealRows.injEq _ _).mp ((Except.ok.injEq _ _).mp hb)
        rw [← hrows, List.map_map]
        have : (Prod.fst ∘ fun k => ((k : Int),
            evalDealCalc ex (dealGroupRows (applyFiltersCalc cfg facts) k))) = id := by
          funext k
          rfl
        rw [this, List.map_id]
        exact List.nodup_dedup _
    · rcases h2 : resolveTrancheCalc cfg t with e | ex
      · rw [show build_calculation_subquery cfg facts = .error e from by
          simp [build_calculation_subquery, h1, hl, h2, Bind.bind, Except.bind]] at hb
        exact absurd hb (by simp)
      · rw [show build_calculation_subquery cfg facts
            = .ok (.trancheRows ((applyFiltersCalc cfg facts).map
              (fun r => (r.dl_nbr, r.tr_id, r.cycle_cde, evalTrancheCalc ex r))))
          from by simp [build_calculation_subquery, h1, hl, h2, Bind.bind, Except.bind]] at hb
        exact absurd hb (by simp)

lemma dealJoin_foldlM (facts : List TrancheBal) (cfgs : List CalculationConfig)
    (deals : List Deal) (g : Deal → List (Option ℚ))
    (h : ∀ c ∈ cfgs, c.aggregation_level = .deal ∧
      ∃ rows, build_calculation_subquery c facts = .ok (.dealRows rows)) :
    cfgs.foldlM (dealJoinStep facts) (deals.map (fun d => (d, g d)))
      = .ok (deals.map (fun d =>
          (d, g d ++ cfgs.map (fun c => dealCalcLookup c facts d.dl_nbr)))) := by
  induction cfgs generalizing g with
  | nil => simp [pure, Except.pure]
  | cons c cs ih =>
    obtain ⟨hl, rows, hb⟩ := h c (List.mem_cons_self c cs)
    have hnd := build_dealRows_keys_nodup c facts rows hb
    have huniq : ∀ b : Deal, (rows.filter (fun p => decide (p.1 = b.dl_nbr))).length ≤ 1 :=
      fun b => filter_matches_len_le_one rows Prod.fst hnd _ b.dl_nbr (fun s => by simp)
    have hlook : ∀ d : Deal,
        joinLookup rows (fun p => decide (p.1 = d.dl_nbr)) (fun p => p.2)
          = dealCalcLookup c facts d.dl_nbr := by
      intro d
      simp only [dealCalcLookup, hb]
    have hstep : dealJoinStep facts (deals.map (fun d => (d, g d))) c
        = .ok (deals.map (fun d => (d, g d ++ [dealCalcLookup c facts d.dl_nbr]))) := by
      simp only [dealJoinStep, hb]
      rw [leftJoinCols_eq_map _ _ _ _ huniq, List.map_map]
      refine congrArg Except.ok (List.map_congr_left ?_)
      intro d _
      simp [hlook d]
    rw [List.foldlM_cons, hstep]
    have hbind : (Except.ok (deals.map (fun d =>
          (d, g d ++ [dealCalcLookup c facts d.dl_nbr]))) : Except RunError _)
          >>= (fun acc => cs.foldlM (dealJoinStep facts) acc)
        = cs.foldlM (dealJoinStep facts)
            (deals.map (fun d => (d, g d ++ [dealCalcLookup c facts d.dl_nbr]))) := rfl
    rw [hbind, ih (fun d => g d ++ [dealCalcLookup c facts d.dl_nbr])
      (fun c' hc' => h c' (List.mem_cons_of_mem c hc'))]
    refine congrArg Except.ok (List.map_congr_left ?_)
    intro d _
    simp [List.append_assoc]

lemma trancheJoin_foldlM (facts : List TrancheBal) (cfgs : List CalculationConfig)
    (tranches : List Tranche) (g : Tranche → List (Option ℚ))
    (h : ∀ c ∈ cfgs, ∃ rows,
      build_calculation_subquery c facts = .ok (.trancheRows rows) ∧
      (rows.map (fun p => (p.1, p.2.1))).Nodup) :
    cfgs.foldlM (trancheJoinStep facts) (tranches.map (fun t => (t, g t)))
      = .ok (tranches.map (fun t =>
          (t, g t ++ cfgs.map (fun c => trancheCalcLookup c facts t.dl_nbr t.tr_id)))) := by
  induction cfgs generalizing g with
  | nil => simp [pure, Except.pure]
  | cons c cs ih =>
    obtain ⟨rows, hb, hnd⟩ := h c (List.mem_cons_self c cs)
    have huniq : ∀ b : Tranche,
        (rows.filter (fun p => decide (p.1 = b.dl_nbr) && decide (p.2.1 = b.tr_id))).length
          ≤ 1 := by
      intro b
      refine filter_matches_len_le_one rows (fun p => (p.1, p.2.1)) hnd _
        (b.dl_nbr, b.tr_id) ?_
      intro p
      simp [Prod.ext_iff]
    have hlook : ∀ t : Tranche,
        joinLookup rows (fun p => decide (p.1 = t.dl_nbr) && decide (p.2.1 = t.tr_id))
          (fun p => p.2.2.2)
          = trancheCalcLookup c facts t.dl_nbr t.tr_id := by
      intro t
      simp only [trancheCalcLookup, hb]
    have hstep : trancheJoinStep facts (tranches.map (fun t => (t, g t))) c
        = .ok (tranches.map (fun t =>
            (t, g t ++ [trancheCalcLookup c facts t.dl_nbr t.tr_id]))) := by
      simp only [trancheJoinStep, hb]
      rw [leftJoinCols_eq_map _ _ _ _ huniq, List.map_map]
      refine congrArg Except.ok (List.map_congr_left ?_)
      intro t _
      simp [hlook t]
    rw [List.foldlM_cons, hstep]
    have hbind : (Except.ok (tranches.map (fun t =>
          (t, g t ++ [trancheCalcLookup c facts t.dl_nbr t.tr_id]))) : Except RunError _)
          >>= (fun acc => cs.foldlM (trancheJoinStep facts) acc)
        = cs.foldlM (trancheJoinStep facts)
            (tranches.map (fun t =>
              (t, g t ++ [trancheCalcLookup c facts t.dl_nbr t.tr_id]))) := rfl
    rw [hbind, ih (fun t => g t ++ [trancheCalcLookup c facts t.dl_nbr t.tr_id])
      (fun c' hc' => h c' (List.mem_cons_of_mem c hc'))]
    refine congrArg Except.ok (List.map_congr_left ?_)
    intro t _
    simp [List.append_assoc]

lemma buildCalcJoin_cfg (cfg : CalculationConfig) (j : CalcJoin)
    (h : buildCalcJoin cfg = .ok j) : j.cfg = cfg := by
  unfold buildCalcJoin at h
  rcases h1 : lookupTB (some cfg.target_field) with e | t
  · simp only [h1, Bind.bind, Except.bind] at h
    exact Except.noConfusion h
  · simp only [h1, Bind.bind, Except.bind] at h
    rcases hl : cfg.aggregation_level <;> simp only [hl] at h
    · rcases h2 : resolveDealCalc cfg t with e2 | ex
      · simp only [h2] at h
        exact Except.noConfusion h
      · simp only [h2] at h
        have hj := (Except.ok.injEq _ _).mp h
        rw [← hj]
    · rcases h2 : resolveTrancheCalc cfg t with e2 | ex
      · simp only [h2] at h
        exact Except.noConfusion h
      · simp only [h2] at h
        have hj := (Except.ok.injEq _ _).mp h
        rw [← hj]

lemma addJoinStep_foldl (cfgs : List CalculationConfig) :
    ∀ (js0 joins : List CalcJoin),
      cfgs.foldlM addJoinStep js0 = .ok joins →
      joins.map (fun j => j.cfg) = js0.map (fun j => j.cfg) ++ cfgs := by
  induction cfgs with
  | nil =>
    intro js0 joins h
    obtain rfl : js0 = joins := (Except.ok.injEq _ _).mp h
    simp
  | cons c cs ih =>
    intro js0 joins h
    rw [List.foldlM_cons] at h
    rcases hbj : buildCalcJoin c with e | j
    · simp only [addJoinStep, hbj, Bind.bind, Except.bind] at h
      exact Except.noConfusion h
    · simp only [addJoinStep, hbj, Bind.bind, Except.bind, pure, Except.pure] at h
      have hrec := ih (js0 ++ [j]) joins h
      rw [hrec, List.map_append]
      simp [buildCalcJoin_cfg c j hbj]

lemma create_enhanced_query_joins (base : String) (cfgs : List CalculationConfig)
    (q : ComposedQuery) (h : create_enhanced_query base cfgs = .ok q) :
    q.joins.map (fun j => j.cfg) = cfgs := by
  unfold create_enhanced_query at h
  by_cases hb : base = "deal" ∨ base = "tranche"
  · simp only [if_pos hb, Bind.bind, Except.bind] at h
    rcases hf : cfgs.foldlM addJoinStep ([] : List CalcJoin) with e | joins
    · simp only [hf] at h
      exact Except.noConfusion h
    · simp only [hf] at h
      have hq := (Except.ok.injEq _ _).mp h
      rw [← hq]
      simpa using addJoinStep_foldl cfgs [] joins hf
  · rw [if_neg hb] at h
    exact absurd h (by simp)

/-- C1 (amended): composing valid deal-level descriptors onto a deal base
yields exactly one output row per base deal, with one extra column per
descriptor (aliased to the descriptor's name in the composed query's
joins), holding the deal's aggregate value or NULL when the descriptor's
subquery has no group for that deal.  The same holds for tranche-level
descriptors on a tranche base provided each subquery has at most one row
per (deal number, tranche id) — without that proviso base rows are
duplicated (see the counterexample). -/
theorem claim1_composed_query_rows :
    (∀ (deals : List Deal) (cfgs : List CalculationConfig) (facts : List TrancheBal),
      (∀ c ∈ cfgs, c.aggregation_level = .deal ∧
        ∃ rows, build_calculation_subquery c facts = .ok (.dealRows rows)) →
      runEnhancedDeal deals cfgs facts
        = .ok (deals.map (fun d =>
            (d, cfgs.map (fun c => dealCalcLookup c facts d.dl_nbr)))))
    ∧ (∀ (tranches : List Tranche) (cfgs : List CalculationConfig) (facts : List TrancheBal),
      (∀ c ∈ cfgs, ∃ rows,
        build_calculation_subquery c facts = .ok (.trancheRows rows) ∧
        (rows.map (fun p => (p.1, p.2.1))).Nodup) →
      runEnhancedTranche tranches cfgs facts
        = .ok (tranches.map (fun t =>
            (t, cfgs.map (fun c => trancheCalcLookup c facts t.dl_nbr t.tr_id)))))
    ∧ (∀ (base : String) (cfgs : List CalculationConfig) (q : ComposedQuery),
      create_enhanced_query base cfgs = .ok q →
      q.joins.map (fun j => j.cfg.name) = cfgs.map (fun c => c.name)) := by
  refine ⟨?_, ?_, ?_⟩
  · intro deals cfgs facts h
    have := dealJoin_foldlM facts cfgs deals (fun _ => []) h
    simpa [runEnhancedDeal] using this
  · intro tranches cfgs facts h
    have := trancheJoin_foldlM facts cfgs tranches (fun _ => []) h
    simpa [runEnhancedTranche] using this
  · intro base cfgs q h
    have hj := create_enhanced_query_joins base cfgs q h
    rw [show (fun j : CalcJoin => j.cfg.name)
        = (fun c : CalculationConfig => c.name) ∘ (fun j : CalcJoin => j.cfg) from rfl,
      ← List.map_map, hj]

/-- Witness for C1 (amended): one deal-level sum composed onto two base
deals — the deal with facts gets its aggregate, the deal without facts gets
NULL, and no base row is suppressed or duplicated. -/
theorem claim1_composed_query_rows_witness :
    runEnhancedDeal [⟨1, "X", "f", "g"⟩, ⟨2, "Y", "f", "g"⟩]
        [⟨"tot", .sum, "ending_balance", .deal, none, none, none, none⟩]
        [⟨1, "A", 7, 5, 0, 0, 0, 0, 0, 0, 0⟩]
      = .ok [(⟨1, "X", "f", "g"⟩, [some 5]), (⟨2, "Y", "f", "g"⟩, [none])] := by
  have h := claim1_composed_query_rows.1
    [⟨1, "X", "f", "g"⟩, ⟨2, "Y", "f", "g"⟩]
    [⟨"tot", .sum, "ending_balance", .deal, none, none, none, none⟩]
    [⟨1, "A", 7, 5, 0, 0, 0, 0, 0, 0, 0⟩]
    (by
      intro c hc
      simp only [List.mem_singleton] at hc
      subst hc
      refine ⟨rfl, [(1, some 5)], ?_⟩
      simp [build_calculation_subquery, lookupTB, field_mapping, resolveDealCalc,
        applyFiltersCalc, cycleFilterCalc, dealGroupKeys, dealGroupRows, evalDealCalc,
        getTB, List.dedup, Bind.bind, Except.bind])
  rw [h]
  simp [dealCalcLookup, joinLookup, build_calculation_subquery, lookupTB, field_mapping,
    resolveDealCalc, applyFiltersCalc, cycleFilterCalc, dealGroupKeys, dealGroupRows,
    evalDealCalc, getTB, List.dedup, List.find?, Bind.bind, Except.bind]

/-- Counterexample for C1 as stated: composing one valid tranche-level
descriptor (no period filter) onto a tranche base duplicates the single
base row — the composed query returns two rows for one base tranche,
because the ungrouped tranche-level subquery has one row per fact. -/
theorem claim1_counterexample :
    runEnhancedTranche [⟨1, "A", "CUSIP1"⟩]
        [⟨"bal", .sum, "ending_balance", .tranche, none, none, none, none⟩]
        [⟨1, "A", 1, 5, 0, 0, 0, 0, 0, 0, 0⟩, ⟨1, "A", 2, 7, 0, 0, 0, 0, 0, 0, 0⟩]
      = .ok [(⟨1, "A", "CUSIP1"⟩, [some 5]), (⟨1, "A", "CUSIP1"⟩, [some 7])]
    ∧ ([(⟨1, "A", "CUSIP1"⟩, [some (5 : ℚ)]), (⟨1, "A", "CUSIP1"⟩, [some 7])]
        : List (Tranche × List (Option ℚ))).length = 2
    ∧ ([⟨1, "A", "CUSIP1"⟩] : List Tranche).length = 1 := by
  refine ⟨?_, rfl, rfl⟩
  rfl

/-- C6 (amended): the composer itself performs no aggregation-level check —
`create_enhanced_query` composes descriptors of any levels onto either base
without error (raising only for an unknown base string or a descriptor
build failure).  The mixed-level rejection lives solely in the API
execution route (app/api/reports.py), which raises its configuration error
before `create_enhanced_query` is invoked. -/
theorem claim6_level_check_location :
    (∀ (base : String) (cfgs : List CalculationConfig),
      (base = "deal" ∨ base = "tranche") →
      (∀ c ∈ cfgs, ∃ j, buildCalcJoin c = .ok j) →
      ∃ q, create_enhanced_query base cfgs = .ok q
        ∧ q.joins.map (fun j => j.cfg) = cfgs)
    ∧ (∀ (lvl : AggregationLevel) (cfgs : List CalculationConfig),
      (∃ c ∈ cfgs, c.aggregation_level ≠ lvl) →
      apiExecuteCalcs lvl cfgs
        = .error ("All calculations must be at " ++ lvl.value ++ " level")) := by
  constructor
  · intro base cfgs hb h
    have hfold : ∀ (cfgs0 : List CalculationConfig) (js0 : List CalcJoin),
        (∀ c ∈ cfgs0, ∃ j, buildCalcJoin c = .ok j) →
        ∃ joins, cfgs0.foldlM addJoinStep js0 = .ok joins := by
      intro cfgs0
      induction cfgs0 with
      | nil => exact fun js0 _ => ⟨js0, rfl⟩
      | cons c cs ih =>
        intro js0 hh
        obtain ⟨j, hj⟩ := hh c (List.mem_cons_self c cs)
        obtain ⟨joins, hjoins⟩ := ih (js0 ++ [j])
          (fun c' hc' => hh c' (List.mem_cons_of_mem c hc'))
        refine ⟨joins, ?_⟩
        rw [List.foldlM_cons]
        simp only [addJoinStep, hj, Bind.bind, Except.bind, pure, Except.pure]
        exact hjoins
    obtain ⟨joins, hjoins⟩ := hfold cfgs [] h
    refine ⟨{ base := base, joins := joins }, ?_, ?_⟩
    · unfold create_enhanced_query
      simp only [if_pos hb, Bind.bind, Except.bind, hjoins]
    · have := addJoinStep_foldl cfgs [] joins hjoins
      simpa using this
  · intro lvl cfgs hex
    obtain ⟨c, hc, hne⟩ := hex
    have hfind : (cfgs.find? (fun c => decide (c.aggregation_level ≠ lvl))).isSome = true := by
      rw [List.find?_isSome]
      exact ⟨c, hc, by simpa using hne⟩
    rcases hf : cfgs.find? (fun c => decide (c.aggregation_level ≠ lvl)) with _ | x
    · rw [hf] at hfind
      simp at hfind
    · unfold apiExecuteCalcs checkLevels
      simp only [hf, Bind.bind, Except.bind]

/-- Witness for C6 (amended): two deal-level calculations and one
tranche-level calculation compose onto a deal base without any error, while
the API route's check rejects the same mix with its 400 error message
before composing. -/
theorem claim6_level_check_location_witness :
    (∃ q, create_enhanced_query "deal"
        [⟨"a", .sum, "ending_balance", .deal, none, none, none, none⟩,
         ⟨"b", .avg, "accrual_days", .deal, none, none, none, none⟩,
         ⟨"c", .sum, "ending_balance", .tranche, none, none, none, none⟩] = .ok q
      ∧ q.joins.map (fun j => j.cfg)
          = [⟨"a", .sum, "ending_balance", .deal, none, none, none, none⟩,
             ⟨"b", .avg, "accrual_days", .deal, none, none, none, none⟩,
             ⟨"c", .sum, "ending_balance", .tranche, none, none, none, none⟩])
    ∧ apiExecuteCalcs .deal
        [⟨"a", .sum, "ending_balance", .deal, none, none, none, none⟩,
         ⟨"b", .avg, "accrual_days", .deal, none, none, none, none⟩,
         ⟨"c", .sum, "ending_balance", .tranche, none, none, none, none⟩]
      = .error "All calculations must be at deal level" := by
  constructor
  · exact claim6_level_check_location.1 "deal" _ (Or.inl rfl)
      (by
        intro c hc
        fin_cases hc <;> exact ⟨_, rfl⟩)
  · have h := claim6_level_check_location.2 .deal
      [⟨"a", .sum, "ending_balance", .deal, none, none, none, none⟩,
       ⟨"b", .avg, "accrual_days", .deal, none, none, none, none⟩,
       ⟨"c", .sum, "ending_balance", .tranche, none, none, none, none⟩]
      ⟨⟨"c", .sum, "ending_balance", .tranche, none, none, none, none⟩,
        by simp, by simp⟩
    simpa using h

/-- Counterexample for C6 as stated: `create_enhanced_query` composes a
tranche-level descriptor onto a deal base without raising any error — the
mixed-level query object is built (the cited code contains no
aggregation-level validation). -/
theorem claim6_counterexample :
    create_enhanced_query "deal"
        [⟨"t_bal", .sum, "ending_balance", .tranche, none, none, none, none⟩]
      = .ok ⟨"deal",
          [⟨⟨"t_bal", .sum, "ending_balance", .tranche, none, none, none, none⟩,
            .onTranche, .trancheE (.plainT .tr_end_bal_amt)⟩]⟩ := by
  rfl

/-- The physical columns `ReportExecutionService.field_mapping` can resolve
(report_execution.py lines 34-53): four deal columns, two tranche columns,
the cycle column and the eight numeric fact columns. -/
inductive RColumn
  | d_dl_nbr
  | d_issr_cde
  | d_cdi_file_nme
  | d_CDB_cdi_file_nme
  | t_tr_id
  | t_tr_cusip_id
  | b_cycle_cde
  | b (f : TBField)
deriving DecidableEq, Repr

/-- `ReportExecutionService.field_mapping`. -/
def reportFieldMapping : String → Option RColumn
  | "dl_nbr" => some .d_dl_nbr
  | "issr_cde" => some .d_issr_cde
  | "cdi_file_nme" => some .d_cdi_file_nme
  | "CDB_cdi_file_nme" => some .d_CDB_cdi_file_nme
  | "tr_id" => some .t_tr_id
  | "tr_cusip_id" => some .t_tr_cusip_id
  | "cycle_cde" => some .b_cycle_cde
  | "tr_end_bal_amt" => some (.b .tr_end_bal_amt)
  | "tr_prin_rel_ls_amt" => some (.b .tr_prin_rel_ls_amt)
  | "tr_pass_thru_rte" => some (.b .tr_pass_thru_rte)
  | "tr_accrl_days" => some (.b .tr_accrl_days)
  | "tr_int_dstrb_amt" => some (.b .tr_int_dstrb_amt)
  | "tr_prin_dstrb_amt" => some (.b .tr_prin_dstrb_amt)
  | "tr_int_accrl_amt" => some (.b .tr_int_accrl_amt)
  | "tr_int_shtfl_amt" => some (.b .tr_int_shtfl_amt)
  | _ => none

/-- A SQL scalar in a result cell. -/
inductive Value
  | vInt (n : Int)
  | vStr (s : String)
  | vRat (q : ℚ)
  | vNull
deriving DecidableEq, Repr

/-- One row of the three-way `Deal × Tranche × TrancheBal` join. -/
structure JRow where
  deal : Deal
  tranche : Tranche
  bal : TrancheBal
deriving DecidableEq, Repr

/-- Reading one resolved column off a joined row. -/
def jGet (r : JRow) : RColumn → Value
  | .d_dl_nbr => .vInt r.deal.dl_nbr
  | .d_issr_cde => .vStr r.deal.issr_cde
  | .d_cdi_file_nme => .vStr r.deal.cdi_file_nme
  | .d_CDB_cdi_file_nme => .vStr r.deal.CDB_cdi_file_nme
  | .t_tr_id => .vStr r.tranche.tr_id
  | .t_tr_cusip_id => .vStr r.tranche.tr_cusip_id
  | .b_cycle_cde => .vInt r.bal.cycle_cde
  | .b f => .vRat (getTB r.bal f)

/-- A scalar inside the list form of a filter value. -/
inductive FScalar
  | sNum (q : ℚ)
  | sStr (s : String)
  | sNull
deriving DecidableEq, Repr

/-- A filter value as supplied in a stored or runtime filter condition: a
scalar, a list of scalars, or null. -/
inductive FValue
  | fNum (q : ℚ)
  | fStr (s : String)
  | fList (vs : List FScalar)
  | fNull
deriving DecidableEq, Repr

/-- The predicate forms `_build_filter_clause` can produce. -/
inductive FilterTest
  | tEq (v : FValue)
  | tNe (v : FValue)
  | tGt (v : FValue)
  | tLt (v : FValue)
  | tGe (v : FValue)
  | tLe (v : FValue)
  | tIn (vs : List FScalar)
  | tNotIn (vs : List FScalar)
  | tContains (s : String)
  | tNotContains (s : String)
  | tIsNull
  | tIsNotNull
deriving DecidableEq, Repr

/-- `[v.strip() for v in value.split(",")]` of the `in`/`not_in` string form. -/
def splitTrim (s : String) : List FScalar :=
  (s.splitOn ",").map (fun v => .sStr v.trim)

/-- Python `str(value)`, as used by the `f-string` of the contains
operators. -/
def pyStr : FValue → String
  | .fStr s => s
  | .fNum q => toString q
  | .fNull => "None"
  | .fList _ => "list"

/-- `ReportExecutionService._build_filter_clause` (report_execution.py lines
292-329): a fixed operator set; `in`/`not_in` accept a comma-separated
string or a literal list (any other value shape falls through to `None`);
an unrecognized operator yields `None`, i.e. no predicate. -/
def buildFilterClause (operator : String) (value : FValue) : Option FilterTest :=
  match operator with
  | "equals" => some (.tEq value)
  | "not_equals" => some (.tNe value)
  | "greater_than" => some (.tGt value)
  | "less_than" => some (.tLt value)
  | "greater_than_or_equal" => some (.tGe value)
  | "less_than_or_equal" => some (.tLe value)
  | "in" =>
    match value with
    | .fStr s => some (.tIn (splitTrim s))
    | .fList vs => some (.tIn vs)
    | _ => none
  | "not_in" =>
    match value with
    | .fStr s => some (.tNotIn (splitTrim s))
    | .fList vs => some (.tNotIn vs)
    | _ => none
  | "contains" => some (.tContains (pyStr value))
  | "not_contains" => some (.tNotContains (pyStr value))
  | "is_null" => some .tIsNull
  | "is_not_null" => some .tIsNotNull
  | _ => none

/-- SQL equality of a column value and a filter literal (NULL compares
false, mismatched types compare false). -/
def valEqF : Value → FValue → Bool
  | .vInt n, .fNum q => decide ((n : ℚ) = q)
  | .vRat x, .fNum q => decide (x = q)
  | .vStr s, .fStr s2 => decide (s = s2)
  | _, _ => false

/-- SQL equality of a column value and a scalar of an IN-list. -/
def valEqS : Value → FScalar → Bool
  | .vInt n, .sNum q => decide ((n : ℚ) = q)
  | .vRat x, .sNum q => decide (x = q)
  | .vStr s, .sStr s2 => decide (s = s2)
  | _, _ => false

/-- SQL strict less-than. -/
def valLtF : Value → FValue → Bool
  | .vInt n, .fNum q => decide ((n : ℚ) < q)
  | .vRat x, .fNum q => decide (x < q)
  | .vStr s, .fStr s2 => decide (s < s2)
  | _, _ => false

/-- SQL strict greater-than. -/
def valGtF : Value → FValue → Bool
  | .vInt n, .fNum q => decide (q < (n : ℚ))
  | .vRat x, .fNum q => decide (q < x)
  | .vStr s, .fStr s2 => decide (s2 < s)
  | _, _ => false

/-- The textual form of a column value, for the `ilike` operators. -/
def strOfValue : Value → String
  | .vStr s => s
  | .vInt n => toString n
  | .vRat q => toString q
  | .vNull => ""

/-- Case-sensitive substring test (callers lowercase both sides for
`ilike`). -/
def containsSub (h n : String) : Bool :=
  decide (n = "") || decide (2 ≤ (h.splitOn n).length)

/-- Evaluating one filter predicate on a column value, with SQL
three-valued logic collapsed to WHERE semantics (NULL comparisons keep no
row). -/
def evalTest (x : Value) (t : FilterTest) : Bool :=
  match t with
  | .tEq v => valEqF x v
  | .tNe v =>
    match x with
    | .vNull => false
    | _ => !valEqF x v
  | .tGt v => valGtF x v
  | .tLt v => valLtF x v
  | .tGe v => valGtF x v || valEqF x v
  | .tLe v => valLtF x v || valEqF x v
  | .tIn vs => vs.any (fun v => valEqS x v)
  | .tNotIn vs =>
    match x with
    | .vNull => false
    | _ => !vs.any (fun v => valEqS x v)
  | .tContains s =>
    match x with
    | .vNull => false
    | _ => containsSub (strOfValue x).toLower s.toLower
  | .tNotContains s =>
    match x with
    | .vNull => false
    | _ => !containsSub (strOfValue x).toLower s.toLower
  | .tIsNull =>
    match x with
    | .vNull => true
    | _ => false
  | .tIsNotNull =>
    match x with
    | .vNull => false
    | _ => true

/-- Modelled from the spec: one tranche selection row of a report
definition (spec §3, "Report Definition"; the ORM class `ReportTranche` of
app/models/reports.py is not among the sources). -/
structure ReportTrancheSel where
  dl_nbr : Int
  tr_id : String
deriving DecidableEq, Repr

/-- Modelled from the spec: one selected deal of a report definition, with
its optional tranche restriction (`ReportDeal`). -/
structure ReportDealSel where
  dl_nbr : Int
  selected_tranches : List ReportTrancheSel
deriving DecidableEq, Repr

/-- Modelled from the spec: one selected output field (`ReportField`),
either a raw physical field or a saved-calculation reference. -/
structure RField where
  field_name : String
  field_source : String
deriving DecidableEq, Repr

/-- Modelled from the spec: one stored filter condition
(`FilterCondition`): field, operator, value. -/
structure FilterCondition where
  field_name : String
  operator : String
  value : FValue
deriving DecidableEq, Repr

/-- Modelled from the spec: a fully-resolved report definition (`Report`):
scope, selected deals, selected fields, filter conditions. -/
structure Report where
  scope : String
  selected_deals : List ReportDealSel
  selected_fields : List RField
  filter_conditions : List FilterCondition
deriving DecidableEq, Repr

/-- The warehouse contents a report execution reads. -/
structure DWDB where
  deals : List Deal
  tranches : List Tranche
  bals : List TrancheBal
deriving DecidableEq, Repr

/-- Python `s.startswith(p)`, as a character-list prefix test. -/
def pyStartsWith (s p : String) : Bool := p.toList.isPrefixOf s.toList

/-- `raw_fields` of `_execute_deal_level_report` / `_execute_tranche_level_report`. -/
def rawFields (rpt : Report) : List RField :=
  rpt.selected_fields.filter (fun f => decide (f.field_source = "raw_field"))

/-- `calculation_fields` of the same functions. -/
def calcFields (rpt : Report) : List RField :=
  rpt.selected_fields.filter (fun f => decide (f.field_source = "saved_calculation"))

/-- `needs_tranche_data` (report_execution.py lines 117-119). -/
def needsTrancheData (rpt : Report) : Bool :=
  (rawFields rpt).any (fun f => pyStartsWith f.field_name "tr_")
    || decide (0 < (calcFields rpt).length)

/-- The deal base restricted to the report's selected deals
(report_execution.py lines 105-107). -/
def baseDeals (db : DWDB) (rpt : Report) : List Deal :=
  if rpt.selected_deals.isEmpty then db.deals
  else db.deals.filter (fun d =>
    (rpt.selected_deals.map (fun dc => dc.dl_nbr)).contains d.dl_nbr)

/-- The inner joins `Deal ⋈ Tranche ⋈ TrancheBal` on the deal and tranche
keys (report_execution.py lines 123-126 and 208-215). -/
def joinRows (db : DWDB) (base : List Deal) : List JRow :=
  base.flatMap (fun d =>
    (db.tranches.filter (fun t => decide (t.dl_nbr = d.dl_nbr))).flatMap (fun t =>
      (db.bals.filter (fun b =>
        decide (b.dl_nbr = t.dl_nbr) && decide (b.tr_id = t.tr_id))).map
        (fun b => ⟨d, t, b⟩)))

/-- `if cycle_filter:` on the joined rows — Python truthiness again, so a
cycle filter of 0 restricts nothing. -/
def cycleRestrictJ (cyc : Option Int) (rows : List JRow) : List JRow :=
  match cyc with
  | some c => if c = 0 then rows else rows.filter (fun r => decide (r.bal.cycle_cde = c))
  | none => rows

/-- The per-restricted-deal predicate of the deal-level tranche filter
(report_execution.py lines 138-143):
`TrancheBal.dl_nbr != dc.dl_nbr OR TrancheBal.tr_id IN ids`. -/
def restrictPred (dc : ReportDealSel) (r : JRow) : Bool :=
  decide (r.bal.dl_nbr ≠ dc.dl_nbr)
    || (dc.selected_tranches.map (fun t => t.tr_id)).contains r.bal.tr_id

/-- The tranche-restriction loop (report_execution.py lines 133-143): one
filter per selected deal that carries a nonempty tranche subset. -/
def trancheRestrict (sel : List ReportDealSel) (rows : List JRow) : List JRow :=
  sel.foldl (fun rs dc =>
    if dc.selected_tranches.isEmpty then rs else rs.filter (restrictPred dc)) rows

/-- The deal-identifying field names (report_execution.py line 147). -/
def dealIdNames : List String := ["dl_nbr", "issr_cde", "cdi_file_nme", "CDB_cdi_file_nme"]

/-- Reading one deal-identifying field by name. -/
def dealFieldVal (d : Deal) : String → Value
  | "dl_nbr" => .vInt d.dl_nbr
  | "issr_cde" => .vStr d.issr_cde
  | "cdi_file_nme" => .vStr d.cdi_file_nme
  | "CDB_cdi_file_nme" => .vStr d.CDB_cdi_file_nme
  | _ => .vNull

/-- One select expression of the deal-level roll-up query. -/
inductive DSelect
  | selDeal (name : String)
  | selSum (col : RColumn) (label : String)
  | selWavg (col : RColumn) (label : String)
  | selAvg (col : RColumn) (label : String)
deriving DecidableEq, Repr

/-- The alias a select expression is labeled with. -/
def dselLabel : DSelect → String
  | .selDeal n => n
  | .selSum _ l => l
  | .selWavg _ l => l
  | .selAvg _ l => l

/-- The explicitly-summed monetary fields (report_execution.py line 156). -/
def sumFieldNames : List String :=
  ["tr_end_bal_amt", "tr_prin_dstrb_amt", "tr_int_dstrb_amt", "tr_int_accrl_amt",
   "tr_int_shtfl_amt"]

/-- The select-item construction of `_execute_deal_level_report` (lines
145-170): deal-identifying fields first, then each `tr_`-prefixed raw field
(except `tr_id`, and skipping names the mapping cannot resolve) with its
roll-up rule — explicit sums, balance-weighted average for
`tr_pass_thru_rte`, plain average for `tr_accrl_days`, sum by default. -/
def dealSelectItems (rpt : Report) : List DSelect :=
  ((rawFields rpt).filter (fun f => dealIdNames.contains f.field_name)).map
    (fun f => DSelect.selDeal f.field_name)
  ++ (rawFields rpt).filterMap (fun f =>
      if pyStartsWith f.field_name "tr_" && decide (f.field_name ≠ "tr_id") then
        match reportFieldMapping f.field_name with
        | none => none
        | some col =>
          if sumFieldNames.contains f.field_name then some (.selSum col f.field_name)
          else if f.field_name = "tr_pass_thru_rte" then some (.selWavg col f.field_name)
          else if f.field_name = "tr_accrl_days" then some (.selAvg col f.field_name)
          else some (.selSum col f.field_name)
      else none)

/-- A column read as a SQL numeric for aggregation (`func.sum` etc.); text
columns coerce to 0, as the SQLite backend sums non-numeric text. -/
def jNum (r : JRow) : RColumn → ℚ
  | .b f => getTB r.bal f
  | .b_cycle_cde => (r.bal.cycle_cde : ℚ)
  | .d_dl_nbr => (r.deal.dl_nbr : ℚ)
  | _ => 0

/-- Evaluating one select expression over the rows of one group. -/
def evalDSelect (s : DSelect) (rows : List JRow) : Value :=
  match s with
  | .selDeal n =>
    match rows with
    | [] => .vNull
    | r :: _ => dealFieldVal r.deal n
  | .selSum col _ =>
    match rows with
    | [] => .vNull
    | _ => .vRat ((rows.map (fun r => jNum r col)).sum)
  | .selWavg col _ =>
    match nullif ((rows.map (fun r => r.bal.tr_end_bal_amt)).sum) with
    | none => .vNull
    | some s0 => .vRat (((rows.map (fun r => jNum r col * r.bal.tr_end_bal_amt)).sum) / s0)
  | .selAvg col _ =>
    match rows with
    | [] => .vNull
    | _ => .vRat ((rows.map (fun r => jNum r col)).sum / rows.length)

/-- The deal-identifying `GROUP BY` columns (lines 172-177). -/
def dealGroupNames (rpt : Report) : List String :=
  ((rawFields rpt).filter (fun f => dealIdNames.contains f.field_name)).map
    (fun f => f.field_name)

/-- The group key of one joined row: the selected deal-identifying fields,
falling back to the deal number when none is selected (lines 179-182). -/
def groupKeyOf (rpt : Report) (r : JRow) : List Value :=
  let names := dealGroupNames rpt
  if names.isEmpty then [.vInt r.deal.dl_nbr] else names.map (dealFieldVal r.deal)

/-- One stored/runtime filter condition applied to the joined rows
(`_apply_filters`, lines 260-290): an unmapped field name or an
unrecognized operator applies no predicate. -/
def repFilterStepJ (rs : List JRow) (cond : FilterCondition) : List JRow :=
  match reportFieldMapping cond.field_name with
  | none => rs
  | some col =>
    match buildFilterClause cond.operator cond.value with
    | none => rs
    | some t => rs.filter (fun r => evalTest (jGet r col) t)

/-- `_apply_filters` on a query whose FROM clause holds all three tables:
stored conditions first, then runtime filters. -/
def applyRepFiltersJ (conds addf : List FilterCondition) (rows : List JRow) : List JRow :=
  addf.foldl repFilterStepJ (conds.foldl repFilterStepJ rows)

/-- Whether a resolved column lives on the deal table. -/
def dealColOnly : RColumn → Bool
  | .d_dl_nbr => true
  | .d_issr_cde => true
  | .d_cdi_file_nme => true
  | .d_CDB_cdi_file_nme => true
  | _ => false

/-- Reading a column off a bare deal row (only deal columns are in FROM;
other columns are guarded by `dealColOnly` before this is consulted). -/
def dealGet (d : Deal) : RColumn → Value
  | .d_dl_nbr => .vInt d.dl_nbr
  | .d_issr_cde => .vStr d.issr_cde
  | .d_cdi_file_nme => .vStr d.cdi_file_nme
  | .d_CDB_cdi_file_nme => .vStr d.CDB_cdi_file_nme
  | _ => .vNull

/-- Execution failure: the generated SQL references a table absent from the
query's FROM clause, and the store rejects the statement. -/
inductive ExecError
  | missingFrom
deriving DecidableEq, Repr

/-- One filter condition applied to a deal-only query: predicates on
tranche or balance columns reference tables outside the FROM clause. -/
def repFilterStepD (acc : Except ExecError (List Deal)) (cond : FilterCondition) :
    Except ExecError (List Deal) :=
  match acc with
  | .error e => .error e
  | .ok rs =>
    match reportFieldMapping cond.field_name with
    | none => .ok rs
    | some col =>
      match buildFilterClause cond.operator cond.value with
      | none => .ok rs
      | some t =>
        if dealColOnly col then .ok (rs.filter (fun d => evalTest (dealGet d col) t))
        else .error .missingFrom

/-- `_apply_filters` on the deal-only query. -/
def applyRepFiltersD (conds addf : List FilterCondition) (rows : List Deal) :
    Except ExecError (List Deal) :=
  addf.foldl repFilterStepD (conds.foldl repFilterStepD (.ok rows))

/-- The entity row a deal-only query without select items returns. -/
def entityRowD (d : Deal) : List (String × Value) :=
  [("dl_nbr", .vInt d.dl_nbr), ("issr_cde", .vStr d.issr_cde),
   ("cdi_file_nme", .vStr d.cdi_file_nme), ("CDB_cdi_file_nme", .vStr d.CDB_cdi_file_nme)]

/-- The entity row the tranche-level query without select items returns
(all columns of the three joined tables). -/
def entityRowJ (r : JRow) : List (String × Value) :=
  [("dl_nbr", .vInt r.deal.dl_nbr), ("issr_cde", .vStr r.deal.issr_cde),
   ("cdi_file_nme", .vStr r.deal.cdi_file_nme),
   ("CDB_cdi_file_nme", .vStr r.deal.CDB_cdi_file_nme),
   ("tr_id", .vStr r.tranche.tr_id), ("tr_cusip_id", .vStr r.tranche.tr_cusip_id),
   ("cycle_cde", .vInt r.bal.cycle_cde),
   ("tr_end_bal_amt", .vRat r.bal.tr_end_bal_amt),
   ("tr_prin_rel_ls_amt", .vRat r.bal.tr_prin_rel_ls_amt),
   ("tr_pass_thru_rte", .vRat r.bal.tr_pass_thru_rte),
   ("tr_accrl_days", .vRat r.bal.tr_accrl_days),
   ("tr_int_dstrb_amt", .vRat r.bal.tr_int_dstrb_amt),
   ("tr_prin_dstrb_amt", .vRat r.bal.tr_prin_dstrb_amt),
   ("tr_int_accrl_amt", .vRat r.bal.tr_int_accrl_amt),
   ("tr_int_shtfl_amt", .vRat r.bal.tr_int_shtfl_amt)]

/-- The aggregation path of `_execute_deal_level_report` (lines 121-182 and
190-197): join, cycle-restrict, tranche-restrict, filter, group by the
selected deal-identifying key set (deal number by default), and evaluate
the select items per group. -/
def execDealNeeds (db : DWDB) (rpt : Report) (cyc : Option Int)
    (conds addf : List FilterCondition) : List (List (String × Value)) :=
  let frows := applyRepFiltersJ conds addf
    (trancheRestrict rpt.selected_deals (cycleRestrictJ cyc (joinRows db (baseDeals db rpt))))
  let items := dealSelectItems rpt
  ((frows.map (groupKeyOf rpt)).dedup).map (fun k =>
    let grp := frows.filter (fun r => decide (groupKeyOf rpt r = k))
    if items.isEmpty then
      entityRowD (match grp with
        | [] => ⟨0, "", "", ""⟩
        | r :: _ => r.deal)
    else items.map (fun s => (dselLabel s, evalDSelect s grp)))

/-- The deal-only path of `_execute_deal_level_report` (lines 183-197). -/
def execDealSimple (db : DWDB) (rpt : Report) (conds addf : List FilterCondition) :
    Except ExecError (List (List (String × Value))) :=
  let items := (rawFields rpt).filterMap (fun f =>
    (reportFieldMapping f.field_name).map (fun col => (f.field_name, col)))
  match applyRepFiltersD conds addf (baseDeals db rpt) with
  | .error e => .error e
  | .ok rows =>
    if items.isEmpty then .ok (rows.map entityRowD)
    else if items.all (fun it => dealColOnly it.2) then
      .ok (rows.map (fun d => items.map (fun it => (it.1, dealGet d it.2))))
    else .error .missingFrom

/-- `ReportExecutionService._execute_deal_level_report`. -/
def execDealReport (db : DWDB) (rpt : Report) (cyc : Option Int)
    (addf : List FilterCondition) : Except ExecError (List (List (String × Value))) :=
  if needsTrancheData rpt then
    .ok (execDealNeeds db rpt cyc rpt.filter_conditions addf)
  else execDealSimple db rpt rpt.filter_conditions addf

/-- The deal/tranche selection filter of `_execute_tranche_level_report`
(lines 221-239): per selected deal, either all its rows or only the listed
tranches; the per-deal disjuncts are OR-ed. -/
def trancheScopeSelect (sel : List ReportDealSel) (rows : List JRow) : List JRow :=
  if sel.isEmpty then rows
  else rows.filter (fun r => sel.any (fun dc =>
    if dc.selected_tranches.isEmpty then decide (r.bal.dl_nbr = dc.dl_nbr)
    else decide (r.bal.dl_nbr = dc.dl_nbr)
      && (dc.selected_tranches.map (fun t => t.tr_id)).contains r.bal.tr_id))

/-- `ReportExecutionService._execute_tranche_level_report` (lines 199-258):
join everything, cycle-restrict, select deals/tranches, emit raw fields
per surviving fact row, apply filters. -/
def execTrancheReport (db : DWDB) (rpt : Report) (cyc : Option Int)
    (addf : List FilterCondition) : Except ExecError (List (List (String × Value))) :=
  let frows := applyRepFiltersJ rpt.filter_conditions addf
    (trancheScopeSelect rpt.selected_deals (cycleRestrictJ cyc (joinRows db db.deals)))
  let items := (rawFields rpt).filterMap (fun f =>
    (reportFieldMapping f.field_name).map (fun col => (f.field_name, col)))
  if items.isEmpty then .ok (frows.map entityRowJ)
  else .ok (frows.map (fun r => items.map (fun it => (it.1, jGet r it.2))))

/-- `ReportExecutionService.execute_report` (lines 55-91), the part that
builds and runs the query for a found report: DEAL scope takes the
roll-up path, any other scope the tranche path. -/
def executeReport (db : DWDB) (rpt : Report) (cyc : Option Int)
    (addf : List FilterCondition) : Except ExecError (List (List (String × Value))) :=
  if rpt.scope = "DEAL" then execDealReport db rpt cyc addf
  else execTrancheReport db rpt cyc addf

lemma restrictPred_iff (dc : ReportDealSel) (r : JRow) :
    restrictPred dc r = true
      ↔ (r.bal.dl_nbr ≠ dc.dl_nbr
          ∨ r.bal.tr_id ∈ dc.selected_tranches.map (fun t => t.tr_id)) := by
  simp [restrictPred]

/-- C10: the per-deal tranche restriction of a DEAL-scope execution — one
predicate `dl_nbr ≠ d OR tr_id ∈ subset` per selected deal with a nonempty
tranche subset — keeps exactly the joined rows satisfying all those
predicates, and every fact row of a *different* deal satisfies each added
predicate unconditionally. -/
theorem claim10_tranche_restriction :
    (∀ (sel : List ReportDealSel) (rows : List JRow) (r : JRow),
      r ∈ trancheRestrict sel rows
        ↔ r ∈ rows ∧ ∀ dc ∈ sel, dc.selected_tranches ≠ [] →
            (r.bal.dl_nbr ≠ dc.dl_nbr
              ∨ r.bal.tr_id ∈ dc.selected_tranches.map (fun t => t.tr_id)))
    ∧ (∀ (dc : ReportDealSel) (r : JRow),
      r.bal.dl_nbr ≠ dc.dl_nbr → restrictPred dc r = true) := by
  constructor
  · intro sel
    induction sel with
    | nil => intro rows r; simp [trancheRestrict]
    | cons dc dcs ih =>
      intro rows r
      show r ∈ trancheRestrict dcs
          (if dc.selected_tranches.isEmpty then rows else rows.filter (restrictPred dc)) ↔ _
      by_cases he : dc.selected_tranches.isEmpty
      · rw [if_pos he, ih rows r]
        have hnil : dc.selected_tranches = [] := List.isEmpty_iff.mp he
        simp [hnil]
      · rw [if_neg he, ih (rows.filter (restrictPred dc)) r]
        have hne : dc.selected_tranches ≠ [] := fun hh => he (by simp [hh])
        constructor
        · rintro ⟨hmem, hall⟩
          obtain ⟨hrows, hpred⟩ := List.mem_filter.mp hmem
          exact ⟨hrows, by
            intro dc' hdc'
            rcases List.mem_cons.mp hdc' with h1 | h1
            · subst h1
              intro _
              exact (restrictPred_iff dc' r).mp hpred
            · exact hall dc' h1⟩
        · rintro ⟨hrows, hall⟩
          refine ⟨List.mem_filter.mpr ⟨hrows, ?_⟩, ?_⟩
          · exact (restrictPred_iff dc r).mpr
              (hall dc (List.mem_cons_self dc dcs) hne)
          · intro dc' hdc'
            exact hall dc' (List.mem_cons_of_mem dc hdc')
  · intro dc r h
    simp [restrictPred, h]

/-- Witness for C10 at concrete data: restricting deal 1 to tranche "A1"
drops deal 1's "A2" row and keeps every row of deal 2. -/
theorem claim10_tranche_restriction_witness :
    (⟨⟨1, "X", "f", "g"⟩, ⟨1, "A2", "c"⟩, ⟨1, "A2", 1, 0, 0, 0, 0, 0, 0, 0, 0⟩⟩
        ∈ trancheRestrict [⟨1, [⟨1, "A1"⟩]⟩]
          [⟨⟨1, "X", "f", "g"⟩, ⟨1, "A2", "c"⟩, ⟨1, "A2", 1, 0, 0, 0, 0, 0, 0, 0, 0⟩⟩]
      ↔ (⟨⟨1, "X", "f", "g"⟩, ⟨1, "A2", "c"⟩, ⟨1, "A2", 1, 0, 0, 0, 0, 0, 0, 0, 0⟩⟩
          ∈ ([⟨⟨1, "X", "f", "g"⟩, ⟨1, "A2", "c"⟩, ⟨1, "A2", 1, 0, 0, 0, 0, 0, 0, 0, 0⟩⟩]
            : List JRow)
        ∧ ∀ dc ∈ [(⟨1, [⟨1, "A1"⟩]⟩ : ReportDealSel)], dc.selected_tranches ≠ [] →
            ((1 : Int) ≠ dc.dl_nbr
              ∨ "A2" ∈ dc.selected_tranches.map (fun t => t.tr_id))))
    ∧ restrictPred ⟨1, [⟨1, "A1"⟩]⟩
        ⟨⟨2, "Y", "f", "g"⟩, ⟨2, "B1", "c"⟩, ⟨2, "B1", 1, 0, 0, 0, 0, 0, 0, 0, 0⟩⟩ = true :=
  ⟨claim10_tranche_restriction.1 _ _ _,
    claim10_tranche_restriction.2 ⟨1, [⟨1, "A1"⟩]⟩
      ⟨⟨2, "Y", "f", "g"⟩, ⟨2, "B1", "c"⟩, ⟨2, "B1", 1, 0, 0, 0, 0, 0, 0, 0, 0⟩⟩
      (by decide)⟩

lemma repFilterStepJ_unknown (c : FilterCondition)
    (h : reportFieldMapping c.field_name = none) (rs : List JRow) :
    repFilterStepJ rs c = rs := by
  simp [repFilterStepJ, h]

lemma repFilterStepD_unknown (c : FilterCondition)
    (h : reportFieldMapping c.field_name = none) (acc : Except ExecError (List Deal)) :
    repFilterStepD acc c = acc := by
  cases acc <;> simp [repFilterStepD, h]

lemma foldl_skip_unknownJ (pre post : List FilterCondition) (c : FilterCondition)
    (h : reportFieldMapping c.field_name = none) (rows : List JRow) :
    (pre ++ c :: post).foldl repFilterStepJ rows
      = (pre ++ post).foldl repFilterStepJ rows := by
  rw [List.foldl_append, List.foldl_append, List.foldl_cons,
    repFilterStepJ_unknown c h]

lemma foldl_skip_unknownD (pre post : List FilterCondition) (c : FilterCondition)
    (h : reportFieldMapping c.field_name = none) (acc : Except ExecError (List Deal)) :
    (pre ++ c :: post).foldl repFilterStepD acc
      = (pre ++ post).foldl repFilterStepD acc := by
  rw [List.foldl_append, List.foldl_append, List.foldl_cons,
    repFilterStepD_unknown c h]

lemma executeReport_conds_congr (db : DWDB) (scope : String)
    (sel : List ReportDealSel) (fields : List RField)
    (conds1 conds2 : List FilterCondition) (cyc : Option Int)
    (addf : List FilterCondition)
    (hJ : ∀ rows, conds1.foldl repFilterStepJ rows = conds2.foldl repFilterStepJ rows)
    (hD : ∀ acc, conds1.foldl repFilterStepD acc = conds2.foldl repFilterStepD acc) :
    executeReport db ⟨scope, sel, fields, conds1⟩ cyc addf
      = executeReport db ⟨scope, sel, fields, conds2⟩ cyc addf := by
  have hG : groupKeyOf ⟨scope, sel, fields, conds1⟩
      = groupKeyOf ⟨scope, sel, fields, conds2⟩ := rfl
  simp only [executeReport, execDealReport, execTrancheReport, execDealNeeds,
    execDealSimple, applyRepFiltersJ, applyRepFiltersD, needsTrancheData, rawFields,
    calcFields, baseDeals, dealSelectItems, dealGroupNames, hG, hJ, hD]

lemma executeReport_addf_congr (db : DWDB) (rpt : Report) (cyc : Option Int)
    (addf1 addf2 : List FilterCondition)
    (hJ : ∀ rows, addf1.foldl repFilterStepJ rows = addf2.foldl repFilterStepJ rows)
    (hD : ∀ acc, addf1.foldl repFilterStepD acc = addf2.foldl repFilterStepD acc) :
    executeReport db rpt cyc addf1 = executeReport db rpt cyc addf2 := by
  simp only [executeReport, execDealReport, execTrancheReport, execDealNeeds,
    execDealSimple, applyRepFiltersJ, applyRepFiltersD, hJ, hD]

/-- C8: a filter condition whose field name the execution field mapping
cannot resolve is silently skipped — inserting it anywhere among the stored
filter conditions, or among the runtime additional filters, leaves the
execution result (DEAL or TRANCHE scope alike) byte-for-byte unchanged. -/
theorem claim8_unknown_filter_skipped (db : DWDB) (scope : String)
    (sel : List ReportDealSel) (fields : List RField)
    (pre post addf : List FilterCondition) (cyc : Option Int) (c : FilterCondition)
    (h : reportFieldMapping c.field_name = none) :
    executeReport db ⟨scope, sel, fields, pre ++ c :: post⟩ cyc addf
      = executeReport db ⟨scope, sel, fields, pre ++ post⟩ cyc addf
    ∧ ∀ conds : List FilterCondition,
      executeReport db ⟨scope, sel, fields, conds⟩ cyc (pre ++ c :: post)
        = executeReport db ⟨scope, sel, fields, conds⟩ cyc (pre ++ post) := by
  constructor
  · exact executeReport_conds_congr db scope sel fields _ _ cyc addf
      (foldl_skip_unknownJ pre post c h) (foldl_skip_unknownD pre post c h)
  · intro conds
    exact executeReport_addf_congr db ⟨scope, sel, fields, conds⟩ cyc _ _
      (foldl_skip_unknownJ pre post c h) (foldl_skip_unknownD pre post c h)

/-- Witness for C8: a condition on the unmapped name "bogus_field" changes
nothing, placed among stored conditions or among runtime filters, here on a
concrete one-deal database and a DEAL-scope report. -/
theorem claim8_unknown_filter_skipped_witness :
    reportFieldMapping "bogus_field" = none
    ∧ executeReport ⟨[⟨1, "X", "f", "g"⟩], [⟨1, "A", "c"⟩],
          [⟨1, "A", 1, 5, 0, 0, 0, 0, 0, 0, 0⟩]⟩
        ⟨"DEAL", [], [⟨"dl_nbr", "raw_field"⟩, ⟨"tr_end_bal_amt", "raw_field"⟩],
          [⟨"dl_nbr", "equals", .fNum 1⟩] ++ ⟨"bogus_field", "equals", .fNum 7⟩
            :: []⟩
        none []
      = executeReport ⟨[⟨1, "X", "f", "g"⟩], [⟨1, "A", "c"⟩],
          [⟨1, "A", 1, 5, 0, 0, 0, 0, 0, 0, 0⟩]⟩
        ⟨"DEAL", [], [⟨"dl_nbr", "raw_field"⟩, ⟨"tr_end_bal_amt", "raw_field"⟩],
          [⟨"dl_nbr", "equals", .fNum 1⟩] ++ []⟩
        none [] :=
  ⟨rfl,
    (claim8_unknown_filter_skipped
      ⟨[⟨1, "X", "f", "g"⟩], [⟨1, "A", "c"⟩], [⟨1, "A", 1, 5, 0, 0, 0, 0, 0, 0, 0⟩]⟩
      "DEAL" [] [⟨"dl_nbr", "raw_field"⟩, ⟨"tr_end_bal_amt", "raw_field"⟩]
      [⟨"dl_nbr", "equals", .fNum 1⟩] [] [] none
      ⟨"bogus_field", "equals", .fNum 7⟩ rfl).1⟩

lemma group_ne_nil_of_mem_keys (rpt : Report) (frows : List JRow) (k : List Value)
    (hk : k ∈ (frows.map (groupKeyOf rpt)).dedup) :
    frows.filter (fun r => decide (groupKeyOf rpt r = k)) ≠ [] := by
  rw [List.mem_dedup] at hk
  obtain ⟨r, hr, hkey⟩ := List.mem_map.mp hk
  intro hnil
  have hmem : r ∈ frows.filter (fun r => decide (groupKeyOf rpt r = k)) :=
    List.mem_filter.mpr ⟨hr, by simp [hkey]⟩
  rw [hnil] at hmem
  exact absurd hmem (List.not_mem_nil r)

lemma mem_zip_self_map {α β : Type} (l : List α) (f : α → β) (p : α × β)
    (h : p ∈ l.zip (l.map f)) : p.2 = f p.1 ∧ p.1 ∈ l := by
  induction l with
  | nil => simp at h
  | cons a l ih =>
    rw [List.map_cons, List.zip_cons_cons] at h
    rcases List.mem_cons.mp h with h1 | h1
    · subst h1
      exact ⟨rfl, List.mem_cons_self a l⟩
    · obtain ⟨h2, h3⟩ := ih h1
      exact ⟨h2, List.mem_cons_of_mem a h3⟩

lemma selSum_mem_items (rpt : Report) (f : RField) (col : RColumn)
    (hf : f ∈ rawFields rpt)
    (h1 : pyStartsWith f.field_name "tr_" = true) (h2 : f.field_name ≠ "tr_id")
    (h3 : f.field_name ≠ "tr_pass_thru_rte") (h4 : f.field_name ≠ "tr_accrl_days")
    (hm : reportFieldMapping f.field_name = some col) :
    DSelect.selSum col f.field_name ∈ dealSelectItems rpt := by
  unfold dealSelectItems
  refine List.mem_append_right _ (List.mem_filterMap.mpr ⟨f, hf, ?_⟩)
  by_cases hs : sumFieldNames.contains f.field_name <;>
    simp [h1, h2, hm, hs, h3, h4]

lemma selWavg_mem_items (rpt : Report) (f : RField)
    (hf : f ∈ rawFields rpt) (hn : f.field_name = "tr_pass_thru_rte") :
    DSelect.selWavg (.b .tr_pass_thru_rte) "tr_pass_thru_rte" ∈ dealSelectItems rpt := by
  unfold dealSelectItems
  refine List.mem_append_right _ (List.mem_filterMap.mpr ⟨f, hf, ?_⟩)
  rw [hn]
  rfl

lemma selAvg_mem_items (rpt : Report) (f : RField)
    (hf : f ∈ rawFields rpt) (hn : f.field_name = "tr_accrl_days") :
    DSelect.selAvg (.b .tr_accrl_days) "tr_accrl_days" ∈ dealSelectItems rpt := by
  unfold dealSelectItems
  refine List.mem_append_right _ (List.mem_filterMap.mpr ⟨f, hf, ?_⟩)
  rw [hn]
  rfl

lemma evalDSelect_selSum (col : RColumn) (label : String) (grp : List JRow)
    (h : grp ≠ []) :
    evalDSelect (.selSum col label) grp = .vRat ((grp.map (fun r => jNum r col)).sum) := by
  cases grp with
  | nil => exact absurd rfl h
  | cons a l => rfl

lemma evalDSelect_selWavg (label : String) (grp : List JRow) :
    evalDSelect (.selWavg (.b .tr_pass_thru_rte) label) grp
      = if ((grp.map (fun r => r.bal.tr_end_bal_amt)).sum) = 0 then Value.vNull
        else .vRat
          (((grp.map (fun r => r.bal.tr_pass_thru_rte * r.bal.tr_end_bal_amt)).sum)
            / ((grp.map (fun r => r.bal.tr_end_bal_amt)).sum)) := by
  unfold evalDSelect nullif
  by_cases h : ((grp.map (fun r => r.bal.tr_end_bal_amt)).sum) = 0 <;>
    simp [h, jNum, getTB]

lemma evalDSelect_selAvg (label : String) (grp : List JRow) (h : grp ≠ []) :
    evalDSelect (.selAvg (.b .tr_accrl_days) label) grp
      = .vRat (((grp.map (fun r => r.bal.tr_accrl_days)).sum) / grp.length) := by
  cases grp with
  | nil => exact absurd rfl h
  | cons a l =>
    show Value.vRat _ = Value.vRat _
    simp [jNum, getTB]

/-- C5 (amended): in a DEAL-scope execution that joins tranche balance
facts, output rows are one per *group*, where the group key is the set of
selected deal-identifying fields (deal number only when none is selected);
within each group — built from the join restricted to the cycle period
when a nonzero cycle filter is given, then tranche-restricted and
filtered — each selected raw tranche field is aggregated by its
field-specific rule: `tr_pass_thru_rte` is the ending-balance-weighted
average with a zero-guard yielding null, `tr_accrl_days` is the simple
average, and every other mapped `tr_` field (the five monetary fields
included) is summed. -/
theorem claim5_deal_rollup_rules (db : DWDB) (scope : String) (sel : List ReportDealSel)
    (fields : List RField) (conds addf : List FilterCondition) (cy : Int)
    (frows : List JRow)
    (hscope : scope = "DEAL")
    (hneeds : needsTrancheData ⟨scope, sel, fields, conds⟩ = true)
    (hcy : cy ≠ 0)
    (hfrows : frows = applyRepFiltersJ conds addf (trancheRestrict sel
      ((joinRows db (baseDeals db ⟨scope, sel, fields, conds⟩)).filter
        (fun r => decide (r.bal.cycle_cde = cy))))) :
    ∃ res, executeReport db ⟨scope, sel, fields, conds⟩ (some cy) addf = .ok res
      ∧ res.length
          = ((frows.map (groupKeyOf ⟨scope, sel, fields, conds⟩)).dedup).length
      ∧ ∀ p ∈ ((frows.map (groupKeyOf ⟨scope, sel, fields, conds⟩)).dedup).zip res,
          (∀ f ∈ rawFields ⟨scope, sel, fields, conds⟩, ∀ col,
            pyStartsWith f.field_name "tr_" = true → f.field_name ≠ "tr_id" →
            f.field_name ≠ "tr_pass_thru_rte" → f.field_name ≠ "tr_accrl_days" →
            reportFieldMapping f.field_name = some col →
            (f.field_name, Value.vRat
              (((frows.filter (fun r =>
                  decide (groupKeyOf ⟨scope, sel, fields, conds⟩ r = p.1))).map
                (fun r => jNum r col)).sum)) ∈ p.2)
          ∧ (∀ f ∈ rawFields ⟨scope, sel, fields, conds⟩,
            f.field_name = "tr_pass_thru_rte" →
            ("tr_pass_thru_rte",
              if (((frows.filter (fun r =>
                    decide (groupKeyOf ⟨scope, sel, fields, conds⟩ r = p.1))).map
                  (fun r => r.bal.tr_end_bal_amt)).sum) = 0 then Value.vNull
              else Value.vRat
                ((((frows.filter (fun r =>
                      decide (groupKeyOf ⟨scope, sel, fields, conds⟩ r = p.1))).map
                    (fun r => r.bal.tr_pass_thru_rte * r.bal.tr_end_bal_amt)).sum)
                  / (((frows.filter (fun r =>
                      decide (groupKeyOf ⟨scope, sel, fields, conds⟩ r = p.1))).map
                    (fun r => r.bal.tr_end_bal_amt)).sum))) ∈ p.2)
          ∧ (∀ f ∈ rawFields ⟨scope, sel, fields, conds⟩,
            f.field_name = "tr_accrl_days" →
            ("tr_accrl_days", Value.vRat
              ((((frows.filter (fun r =>
                    decide (groupKeyOf ⟨scope, sel, fields, conds⟩ r = p.1))).map
                  (fun r => r.bal.tr_accrl_days)).sum)
                / (frows.filter (fun r =>
                    decide (groupKeyOf ⟨scope, sel, fields, conds⟩ r = p.1))).length))
              ∈ p.2) := by
  have hcycR : ∀ rows, cycleRestrictJ (some cy) rows
      = rows.filter (fun r => decide (r.bal.cycle_cde = cy)) := by
    intro rows
    simp [cycleRestrictJ, hcy]
  have hexec : executeReport db ⟨scope, sel, fields, conds⟩ (some cy) addf
      = .ok (execDealNeeds db ⟨scope, sel, fields, conds⟩ (some cy) conds addf) := by
    unfold executeReport execDealReport
    have hsc : (⟨scope, sel, fields, conds⟩ : Report).scope = "DEAL" := hscope
    rw [if_pos hsc, if_pos hneeds]
  have hres : execDealNeeds db ⟨scope, sel, fields, conds⟩ (some cy) conds addf
      = ((frows.map (groupKeyOf ⟨scope, sel, fields, conds⟩)).dedup).map (fun k =>
          let grp := frows.filter (fun r =>
            decide (groupKeyOf ⟨scope, sel, fields, conds⟩ r = k))
          if (dealSelectItems ⟨scope, sel, fields, conds⟩).isEmpty then
            entityRowD (match grp with
              | [] => ⟨0, "", "", ""⟩
              | r :: _ => r.deal)
          else (dealSelectItems ⟨scope, sel, fields, conds⟩).map
            (fun s => (dselLabel s, evalDSelect s grp))) := by
    unfold execDealNeeds
    rw [hcycR, ← hfrows]
  refine ⟨execDealNeeds db ⟨scope, sel, fields, conds⟩ (some cy) conds addf, hexec, ?_, ?_⟩
  · rw [hres, List.length_map]
  · intro p hp
    rw [hres] at hp
    obtain ⟨hp2, hp1⟩ := mem_zip_self_map _ _ p hp
    have hgrp : frows.filter (fun r =>
        decide (groupKeyOf ⟨scope, sel, fields, conds⟩ r = p.1)) ≠ [] :=
      group_ne_nil_of_mem_keys _ frows p.1 hp1
    refine ⟨?_, ?_, ?_⟩
    · intro f hf col h1 h2 h3 h4 hm
      have hitem := selSum_mem_items _ f col hf h1 h2 h3 h4 hm
      have hne : (dealSelectItems ⟨scope, sel, fields, conds⟩).isEmpty = false := by
        cases hdi : dealSelectItems ⟨scope, sel, fields, conds⟩ with
        | nil => rw [hdi] at hitem; exact absurd hitem (List.not_mem_nil _)
        | cons a l => rfl
      rw [hp2]
      simp only [hne, Bool.false_eq_true, if_false]
      refine List.mem_map.mpr ⟨DSelect.selSum col f.field_name, hitem, ?_⟩
      rw [evalDSelect_selSum _ _ _ hgrp]
      rfl
    · intro f hf hn
      have hitem := selWavg_mem_items _ f hf hn
      have hne : (dealSelectItems ⟨scope, sel, fields, conds⟩).isEmpty = false := by
        cases hdi : dealSelectItems ⟨scope, sel, fields, conds⟩ with
        | nil => rw [hdi] at hitem; exact absurd hitem (List.not_mem_nil _)
        | cons a l => rfl
      rw [hp2]
      simp only [hne, Bool.false_eq_true, if_false]
      refine List.mem_map.mpr ⟨DSelect.selWavg (.b .tr_pass_thru_rte) "tr_pass_thru_rte",
        hitem, ?_⟩
      rw [evalDSelect_selWavg]
      rfl
    · intro f hf hn
      have hitem := selAvg_mem_items _ f hf hn
      have hne : (dealSelectItems ⟨scope, sel, fields, conds⟩).isEmpty = false := by
        cases hdi : dealSelectItems ⟨scope, sel, fields, conds⟩ with
        | nil => rw [hdi] at hitem; exact absurd hitem (List.not_mem_nil _)
        | cons a l => rfl
      rw [hp2]
      simp only [hne, Bool.false_eq_true, if_false]
      refine List.mem_map.mpr ⟨DSelect.selAvg (.b .tr_accrl_days) "tr_accrl_days",
        hitem, ?_⟩
      rw [evalDSelect_selAvg _ _ hgrp]
      rfl

/-- Witness for C5 (amended): a one-deal, two-tranche report at cycle
202412 — the execution succeeds with one row per group key, and the
evaluated output shows the sum (400), the balance-weighted average
((2·100 + 6·300)/400 = 5, not the plain average 4) and the simple average
of accrual days (25). -/
theorem claim5_deal_rollup_rules_witness :
    needsTrancheData ⟨"DEAL", [],
        [⟨"dl_nbr", "raw_field"⟩, ⟨"tr_end_bal_amt", "raw_field"⟩,
         ⟨"tr_pass_thru_rte", "raw_field"⟩, ⟨"tr_accrl_days", "raw_field"⟩], []⟩ = true
    ∧ ((202412 : Int) ≠ 0)
    ∧ executeReport
        ⟨[⟨1, "X", "f", "g"⟩], [⟨1, "A", "c1"⟩, ⟨1, "B", "c2"⟩],
          [⟨1, "A", 202412, 100, 0, 2, 30, 0, 0, 0, 0⟩,
           ⟨1, "B", 202412, 300, 0, 6, 20, 0, 0, 0, 0⟩,
           ⟨1, "A", 202411, 999, 0, 9, 9, 0, 0, 0, 0⟩]⟩
        ⟨"DEAL", [],
          [⟨"dl_nbr", "raw_field"⟩, ⟨"tr_end_bal_amt", "raw_field"⟩,
           ⟨"tr_pass_thru_rte", "raw_field"⟩, ⟨"tr_accrl_days", "raw_field"⟩], []⟩
        (some 202412) []
      = .ok [[("dl_nbr", .vInt 1), ("tr_end_bal_amt", .vRat 400),
          ("tr_pass_thru_rte", .vRat 5), ("tr_accrl_days", .vRat 25)]]
    ∧ ∃ res, executeReport
        ⟨[⟨1, "X", "f", "g"⟩], [⟨1, "A", "c1"⟩, ⟨1, "B", "c2"⟩],
          [⟨1, "A", 202412, 100, 0, 2, 30, 0, 0, 0, 0⟩,
           ⟨1, "B", 202412, 300, 0, 6, 20, 0, 0, 0, 0⟩,
           ⟨1, "A", 202411, 999, 0, 9, 9, 0, 0, 0, 0⟩]⟩
        ⟨"DEAL", [],
          [⟨"dl_nbr", "raw_field"⟩, ⟨"tr_end_bal_amt", "raw_field"⟩,
           ⟨"tr_pass_thru_rte", "raw_field"⟩, ⟨"tr_accrl_days", "raw_field"⟩], []⟩
        (some 202412) [] = .ok res
      ∧ res.length = (((applyRepFiltersJ [] [] (trancheRestrict []
          ((joinRows
              ⟨[⟨1, "X", "f", "g"⟩], [⟨1, "A", "c1"⟩, ⟨1, "B", "c2"⟩],
                [⟨1, "A", 202412, 100, 0, 2, 30, 0, 0, 0, 0⟩,
                 ⟨1, "B", 202412, 300, 0, 6, 20, 0, 0, 0, 0⟩,
                 ⟨1, "A", 202411, 999, 0, 9, 9, 0, 0, 0, 0⟩]⟩
              (baseDeals
                ⟨[⟨1, "X", "f", "g"⟩], [⟨1, "A", "c1"⟩, ⟨1, "B", "c2"⟩],
                  [⟨1, "A", 202412, 100, 0, 2, 30, 0, 0, 0, 0⟩,
                   ⟨1, "B", 202412, 300, 0, 6, 20, 0, 0, 0, 0⟩,
                   ⟨1, "A", 202411, 999, 0, 9, 9, 0, 0, 0, 0⟩]⟩
                ⟨"DEAL", [],
                  [⟨"dl_nbr", "raw_field"⟩, ⟨"tr_end_bal_amt", "raw_field"⟩,
                   ⟨"tr_pass_thru_rte", "raw_field"⟩, ⟨"tr_accrl_days", "raw_field"⟩],
                  []⟩)).filter
            (fun r => decide (r.bal.cycle_cde = 202412))))).map
          (groupKeyOf ⟨"DEAL", [],
            [⟨"dl_nbr", "raw_field"⟩, ⟨"tr_end_bal_amt", "raw_field"⟩,
             ⟨"tr_pass_thru_rte", "raw_field"⟩, ⟨"tr_accrl_days", "raw_field"⟩], []⟩)).dedup).length := by
  refine ⟨rfl, by decide, ?_, ?_⟩
  · simp [executeReport, execDealReport, execDealNeeds, needsTrancheData, rawFields,
      calcFields, pyStartsWith, baseDeals, joinRows, cycleRestrictJ, trancheRestrict,
      applyRepFiltersJ, repFilterStepJ, groupKeyOf, dealGroupNames, dealIdNames,
      dealSelectItems, reportFieldMapping, sumFieldNames, dselLabel, evalDSelect, jNum,
      getTB, dealFieldVal, nullif, List.dedup]
    norm_num
  · obtain ⟨res, h1, h2, h3⟩ := claim5_deal_rollup_rules
      ⟨[⟨1, "X", "f", "g"⟩], [⟨1, "A", "c1"⟩, ⟨1, "B", "c2"⟩],
        [⟨1, "A", 202412, 100, 0, 2, 30, 0, 0, 0, 0⟩,
         ⟨1, "B", 202412, 300, 0, 6, 20, 0, 0, 0, 0⟩,
         ⟨1, "A", 202411, 999, 0, 9, 9, 0, 0, 0, 0⟩]⟩
      "DEAL" []
      [⟨"dl_nbr", "raw_field"⟩, ⟨"tr_end_bal_amt", "raw_field"⟩,
       ⟨"tr_pass_thru_rte", "raw_field"⟩, ⟨"tr_accrl_days", "raw_field"⟩]
      [] [] 202412 _ rfl rfl (by decide) rfl
    exact ⟨res, h1, h2⟩

/-- Counterexample for C5 as stated: with only `issr_cde` selected as the
deal-identifying field, two deals of the same issuer collapse into ONE
output row (issuer grain, not deal grain), and a cycle filter of 0 is
Python-falsy so facts of cycle 1 are included: the sum is 5 + 7 + 11 = 23,
where the claim predicts per-deal sums 5 and 11 at cycle 0 only. -/
theorem claim5_counterexample :
    executeReport
        ⟨[⟨1, "X", "f", "g"⟩, ⟨2, "X", "f", "g"⟩], [⟨1, "A", "c"⟩, ⟨2, "A", "c"⟩],
          [⟨1, "A", 0, 5, 0, 0, 0, 0, 0, 0, 0⟩, ⟨1, "A", 1, 7, 0, 0, 0, 0, 0, 0, 0⟩,
           ⟨2, "A", 0, 11, 0, 0, 0, 0, 0, 0, 0⟩]⟩
        ⟨"DEAL", [], [⟨"issr_cde", "raw_field"⟩, ⟨"tr_end_bal_amt", "raw_field"⟩], []⟩
        (some 0) []
      = .ok [[("issr_cde", .vStr "X"), ("tr_end_bal_amt", .vRat 23)]]
    ∧ ([⟨1, "X", "f", "g"⟩, ⟨2, "X", "f", "g"⟩] : List Deal).length = 2
    ∧ ((23 : ℚ) ≠ 5 ∧ (23 : ℚ) ≠ 11) := by
  refine ⟨?_, rfl, by norm_num⟩
  simp [executeReport, execDealReport, execDealNeeds, needsTrancheData, rawFields,
    calcFields, pyStartsWith, baseDeals, joinRows, cycleRestrictJ, trancheRestrict,
    applyRepFiltersJ, repFilterStepJ, groupKeyOf, dealGroupNames, dealIdNames,
    dealSelectItems, reportFieldMapping, sumFieldNames, dselLabel, evalDSelect, jNum,
    getTB, dealFieldVal, nullif, List.dedup]
  norm_num
